import Mathlib

/-
  A shallow embedding of src/game.cpp (a small billiards game).

  Conventions used throughout:
  * C++ floats are modelled as real numbers; `pow(e, 0.5)` becomes `Real.sqrt`.
  * Division by zero in Lean yields 0, so normalizing a zero-length vector is
    modelled as the guarded variant suggested in the design notes (the C++
    original produces NaN there).
  * The fixed-size arrays of the Table are length-7 (balls) and length-6
    (pockets) lists; `getB`/`setB` make the C++ in-place reference writes
    explicit.
  * Scene calls are tracked only as far as the specification can observe
    them: each ball keeps a `mesh` liveness flag, and `update` additionally
    returns a `FrameLog` recording which ball indices were handed to
    `moveBall`, which pocket events fired, whether the table was reset, and
    whether any ball-ball collision response ran.  The log is write-only:
    it never feeds back into the simulation state.
-/

open Classical

/-- 2D vector value type, mirroring `class Vector2`. -/
structure Vector2 where
  x : ℝ
  y : ℝ

/-- `Vector2::length`, i.e. `pow(x*x + y*y, 0.5)`. -/
noncomputable def Vector2.length (v : Vector2) : ℝ :=
  Real.sqrt (v.x ^ 2 + v.y ^ 2)

/-- `Vector2::normalize` (in-place in C++; returns the new value here). -/
noncomputable def Vector2.normalize (v : Vector2) : Vector2 :=
  ⟨v.x / v.length, v.y / v.length⟩

/-- `Vector2::invertX`. -/
def Vector2.invertX (v : Vector2) : Vector2 := ⟨-v.x, v.y⟩

/-- `Vector2::invertY`. -/
def Vector2.invertY (v : Vector2) : Vector2 := ⟨v.x, -v.y⟩

/-- `Params::Table::width`. -/
def tableWidth : ℝ := 15

/-- `Params::Table::height`. -/
def tableHeight : ℝ := 8

/-- `Params::Table::pocketRadius`. -/
def pocketRadius : ℝ := 0.5

/-- `Params::Ball::radius`. -/
def ballRadius : ℝ := 0.3

/-- `Params::Shot::chargeTime`. -/
def chargeTime : ℝ := 1

/-- `Params::Table::pocketsPositions` (six pockets). -/
def pocketsPositions : List Vector2 :=
  [⟨-0.5 * tableWidth, -0.5 * tableHeight⟩,
   ⟨0, -0.5 * tableHeight⟩,
   ⟨0.5 * tableWidth, -0.5 * tableHeight⟩,
   ⟨-0.5 * tableWidth, 0.5 * tableHeight⟩,
   ⟨0, 0.5 * tableHeight⟩,
   ⟨0.5 * tableWidth, 0.5 * tableHeight⟩]

/-- `Params::Table::ballsPositions` (cue ball first, then six object balls). -/
def ballsPositions : List Vector2 :=
  [⟨-0.3 * tableWidth, 0⟩,
   ⟨0.2 * tableWidth, 0⟩,
   ⟨0.25 * tableWidth, 0.05 * tableHeight⟩,
   ⟨0.25 * tableWidth, -0.05 * tableHeight⟩,
   ⟨0.3 * tableWidth, 0.1 * tableHeight⟩,
   ⟨0.3 * tableWidth, 0⟩,
   ⟨0.3 * tableWidth, -0.1 * tableHeight⟩]

/-- Per-ball state: one slot of the Table's parallel arrays
    (`ballsCurrentPositions`, `speedDirection`, `speedModulus`, `isPocketed`,
    `balls`, the last one abstracted to a mesh-liveness flag). -/
structure BallState where
  pos : Vector2
  dir : Vector2
  mod : ℝ
  pocketed : Bool
  mesh : Bool

instance : Inhabited BallState :=
  ⟨⟨⟨0, 0⟩, ⟨0, 0⟩, 0, false, false⟩⟩

/-- Index read into the ball array. -/
def getB (bs : List BallState) (i : ℕ) : BallState :=
  bs.getD i default

/-- Index write into the ball array. -/
def setB (bs : List BallState) (i : ℕ) (b : BallState) : List BallState :=
  bs.set i b

/-- `Table::init()`: every ball at its canonical position, direction and
    speed zeroed, no ball pocketed, every mesh created. -/
def tableInit : List BallState :=
  ballsPositions.map (fun p => ⟨p, ⟨0, 0⟩, 0, false, true⟩)

/-- `Table::speedSum()`. -/
def speedSum (bs : List BallState) : ℝ :=
  (bs.map (fun b => b.mod)).sum

/-- `Game::isInPocket`: some pocket center is within `pocketRadius` of the
    ball's position (the C++ loop over the six pockets). -/
def isInPocket (bs : List BallState) (i : ℕ) : Prop :=
  ∃ p ∈ pocketsPositions,
    Real.sqrt ((p.x - (getB bs i).pos.x) ^ 2 + (p.y - (getB bs i).pos.y) ^ 2)
      ≤ pocketRadius

/-- First border branch of `Game::checkBorders`:
    bottom edge (`y < -height/2 + radius`), loss uses `abs`. -/
noncomputable def borderStep1 (b : BallState) : BallState :=
  if b.pos.y < -0.5 * tableHeight + ballRadius then
    { b with pos := ⟨b.pos.x, -0.5 * tableHeight + ballRadius⟩,
             mod := b.mod - 0.15 * b.mod * (1 + |b.dir.y|),
             dir := b.dir.invertY }
  else b

/-- Second border branch: top edge (`y > height/2 - radius`), loss uses the
    signed component `speedDirection.y` (no `abs` in the source). -/
noncomputable def borderStep2 (b : BallState) : BallState :=
  if b.pos.y > 0.5 * tableHeight - ballRadius then
    { b with pos := ⟨b.pos.x, 0.5 * tableHeight - ballRadius⟩,
             mod := b.mod - 0.15 * b.mod * (1 + b.dir.y),
             dir := b.dir.invertY }
  else b

/-- Third border branch: left edge (`x < -width/2 + radius`), loss uses `abs`. -/
noncomputable def borderStep3 (b : BallState) : BallState :=
  if b.pos.x < -0.5 * tableWidth + ballRadius then
    { b with pos := ⟨-0.5 * tableWidth + ballRadius, b.pos.y⟩,
             mod := b.mod - 0.15 * b.mod * (1 + |b.dir.x|),
             dir := b.dir.invertX }
  else b

/-- Fourth border branch: right edge (`x > width/2 - radius`), loss uses the
    signed component `speedDirection.x` (no `abs` in the source). -/
noncomputable def borderStep4 (b : BallState) : BallState :=
  if b.pos.x > 0.5 * tableWidth - ballRadius then
    { b with pos := ⟨0.5 * tableWidth - ballRadius, b.pos.y⟩,
             mod := b.mod - 0.15 * b.mod * (1 + b.dir.x),
             dir := b.dir.invertX }
  else b

/-- `Game::checkBorders`: the four edge tests run in source order on ball
    `i`, each reading the state left by the previous one. -/
noncomputable def checkBorders (i : ℕ) (bs : List BallState) : List BallState :=
  setB bs i (borderStep4 (borderStep3 (borderStep2 (borderStep1 (getB bs i)))))

/-- The blended post-collision velocity written to the current ball
    (`speedDirection` lines of `Game::checkBallCollision`, before the
    renormalization).  `vn1 vt1` belong to one ball and `vn2 vt2` to the
    other exactly as in the source. -/
def blendA (vn1 vn2 vt1 vt2 s c : ℝ) : Vector2 :=
  ⟨0.85 * (vn2 * s - vt2 * c) + 0.15 * (vn1 * s - vt1 * c),
   0.85 * (vn2 * c + vt2 * s) + 0.15 * (vn1 * c + vt1 * s)⟩

/-- The blended post-collision velocity written to the other ball. -/
def blendB (vn1 vn2 vt1 vt2 s c : ℝ) : Vector2 :=
  ⟨0.85 * (vn1 * s - vt1 * c) + 0.15 * (vn2 * s - vt2 * c),
   0.85 * (vn1 * c + vt1 * s) + 0.15 * (vn2 * c + vt2 * s)⟩

/-- One iteration of the `for` loop in `Game::checkBallCollision`, processing
    candidate partner `j` for current ball `i`.  The accumulated Bool records
    whether any collision response has run so far (write-only
    instrumentation).  Note `distance.normalize()` in the source recomputes
    exactly `(s, c)`, which is what the separation below uses. -/
noncomputable def collideStep (i : ℕ) (acc : List BallState × Bool) (j : ℕ) :
    List BallState × Bool :=
  if j = i then acc
  else
    let bs := acc.1
    let bi := getB bs i
    let bj := getB bs j
    let dx := bj.pos.x - bi.pos.x
    let dy := bj.pos.y - bi.pos.y
    let len := Real.sqrt (dx ^ 2 + dy ^ 2)
    if len < 2 * ballRadius then
      let s := dx / len
      let c := dy / len
      let vn1 := bi.dir.x * bi.mod * s + bi.dir.y * bi.mod * c
      let vn2 := bj.dir.x * bj.mod * s + bj.dir.y * bj.mod * c
      let vt1 := -bj.dir.x * bj.mod * c + bj.dir.y * bj.mod * s
      let vt2 := -bi.dir.x * bi.mod * c + bi.dir.y * bi.mod * s
      let di := blendA vn1 vn2 vt1 vt2 s c
      let dj := blendB vn1 vn2 vt1 vt2 s c
      let bs1 := setB bs i
        { bi with pos := ⟨bi.pos.x - s * (2 * ballRadius - len),
                          bi.pos.y - c * (2 * ballRadius - len)⟩,
                  dir := di.normalize,
                  mod := 0.95 * di.length }
      let bs2 := setB bs1 j
        { bj with dir := dj.normalize, mod := 0.95 * dj.length }
      (bs2, true)
    else acc

/-- The loop order `i = 0 .. 6` of the two per-frame loops. -/
def ballIndices : List ℕ := [0, 1, 2, 3, 4, 5, 6]

/-- `Game::checkBallCollision` for current ball `i`; also reports whether any
    collision response ran. -/
noncomputable def checkBallCollision (i : ℕ) (bs : List BallState) :
    List BallState × Bool :=
  ballIndices.foldl (collideStep i) (bs, false)

/-- Events produced by one `moveBall` call (write-only instrumentation). -/
structure MoveEv where
  pocketEvent : Option ℕ
  reset : Bool
  collided : Bool

/-- `Game::moveBall`.  Pocket check first (cue ball: full table reset;
    other balls: mesh destroyed, sentinel position `(2*width, 2*width)`,
    speed zeroed, `isPocketed` set, remaining steps skipped), otherwise
    borders, collisions, Euler integration and friction in source order. -/
noncomputable def moveBall (dt : ℝ) (i : ℕ) (bs : List BallState) :
    List BallState × MoveEv :=
  if isInPocket bs i then
    if i = 0 then
      (tableInit, ⟨some 0, true, false⟩)
    else
      (setB bs i
        { getB bs i with
            pos := ⟨2 * tableWidth, 2 * tableWidth⟩,
            mod := 0,
            pocketed := true,
            mesh := false },
       ⟨some i, false, false⟩)
  else
    let bs1 := checkBorders i bs
    let r2 := checkBallCollision i bs1
    let b := getB r2.1 i
    let bs3 := setB r2.1 i
      { b with pos := ⟨b.pos.x + b.dir.x * b.mod * dt,
                       b.pos.y + b.dir.y * b.mod * dt⟩,
               mod := max (b.mod - 0.05 * tableWidth * dt) 0 }
    (bs3, ⟨none, false, r2.2⟩)

/-- Per-frame event log (write-only instrumentation of one `update`). -/
structure FrameLog where
  processed : List ℕ
  pockets : List ℕ
  reset : Bool
  collided : Bool

/-- The empty log. -/
def emptyLog : FrameLog := ⟨[], [], false, false⟩

/-- One iteration of the `for` loop in `Game::update`: pocketed balls are
    skipped, every other index is handed to `moveBall`. -/
noncomputable def updateStep (dt : ℝ) (acc : List BallState × FrameLog)
    (i : ℕ) : List BallState × FrameLog :=
  if (getB acc.1 i).pocketed then acc
  else
    let r := moveBall dt i acc.1
    (r.1,
     { processed := acc.2.processed ++ [i],
       pockets := acc.2.pockets ++ r.2.pocketEvent.toList,
       reset := acc.2.reset || r.2.reset,
       collided := acc.2.collided || r.2.collided })

/-- Whole game state: the table plus the controller flags. -/
structure GameState where
  balls : List BallState
  isChargingShot : Bool
  shotChargeProgress : ℝ
  isBallsMoving : Bool

/-- `Game::update(dt)`: advance the charge if charging, then, if balls are
    moving, run `moveBall` over every non-pocketed ball in index order and
    drop back to idle exactly when `speedSum()` is zero. -/
noncomputable def update (dt : ℝ) (st : GameState) : GameState × FrameLog :=
  let progress1 :=
    if st.isChargingShot then min (st.shotChargeProgress + dt / chargeTime) 1
    else st.shotChargeProgress
  if st.isBallsMoving then
    let r := ballIndices.foldl (updateStep dt) (st.balls, emptyLog)
    ({ balls := r.1,
       isChargingShot := st.isChargingShot,
       shotChargeProgress := progress1,
       isBallsMoving := if speedSum r.1 = 0 then false else true },
     r.2)
  else
    ({ st with shotChargeProgress := progress1 }, emptyLog)

/-- `Game::mouseButtonPressed`. -/
def mouseButtonPressed (x y : ℝ) (st : GameState) : GameState :=
  if st.isBallsMoving then st
  else { st with isChargingShot := true }

/-- `Game::mouseButtonReleased`: if balls are not moving, aim the cue ball
    at `(x, y)`, give it `shotChargeProgress * width` speed and start the
    balls moving. -/
noncomputable def mouseButtonReleased (x y : ℝ) (st : GameState) : GameState :=
  if st.isBallsMoving then st
  else
    { st with
        balls := setB st.balls 0
          { getB st.balls 0 with
              dir := (Vector2.normalize
                ⟨x - (getB st.balls 0).pos.x, y - (getB st.balls 0).pos.y⟩),
              mod := st.shotChargeProgress * tableWidth },
        isBallsMoving := true,
        isChargingShot := false,
        shotChargeProgress := 0 }

/-- `Game::init()` as far as the core state is concerned. -/
def initialState : GameState :=
  ⟨tableInit, false, 0, false⟩

/-- States reachable from `Game::init()` by any sequence of `update`,
    `mouseButtonPressed` and `mouseButtonReleased` calls. -/
inductive Reachable : GameState → Prop where
  | init : Reachable initialState
  | step (dt : ℝ) {st : GameState} : Reachable st → Reachable (update dt st).1
  | press (x y : ℝ) {st : GameState} :
      Reachable st → Reachable (mouseButtonPressed x y st)
  | release (x y : ℝ) {st : GameState} :
      Reachable st → Reachable (mouseButtonReleased x y st)

/-- A ball that has been pocketed earlier: sentinel position
    `(2*width, 2*width) = (30, 30)`, speed zero, mesh destroyed. -/
def sentinelBall : BallState :=
  ⟨⟨30, 30⟩, ⟨0, 0⟩, 0, true, false⟩

/-- The observable state `moveBall` leaves a pocketed non-cue ball in:
    sentinel position far off the table, pocketed flag set, speed zero,
    mesh destroyed. -/
def pocketedSentinel (b : BallState) : Prop :=
  b.pos = ⟨2 * tableWidth, 2 * tableWidth⟩ ∧ b.pocketed = true ∧
  b.mod = 0 ∧ b.mesh = false

/-- A position strictly within the inward-offset border rectangle (none of
    the four border branches fires on it). -/
def insideBorders (v : Vector2) : Prop :=
  -0.5 * tableHeight + ballRadius ≤ v.y ∧ v.y ≤ 0.5 * tableHeight - ballRadius ∧
  -0.5 * tableWidth + ballRadius ≤ v.x ∧ v.x ≤ 0.5 * tableWidth - ballRadius

/-- Scenario: the cue ball sits inside the bottom-left pocket's capture disk
    (the other balls are at the canonical layout, everything at rest). -/
def cuePocketBalls : List BallState :=
  setB tableInit 0 ⟨⟨-7.4, -3.9⟩, ⟨0, 0⟩, 0, false, true⟩

/-- Game state for the cue-ball-pocketed scenario. -/
def cuePocketState : GameState :=
  ⟨cuePocketBalls, false, 0, true⟩

/-- Scenario: a single active ball resting exactly on the inner right border
    line, moving straight right; the other six balls are pocketed. -/
def borderEdgeState : GameState :=
  ⟨[⟨⟨7.2, 0⟩, ⟨1, 0⟩, 1, false, true⟩,
    sentinelBall, sentinelBall, sentinelBall,
    sentinelBall, sentinelBall, sentinelBall],
   false, 0, true⟩

/-- Scenario: ball 0 approaches the resting ball 1 diagonally; after one
    frame it sits exactly left of ball 1 at distance 0.5, so the second
    frame runs the collision response inside ball 1's simulation step.
    Balls 2..6 are pocketed. -/
def pumpState : GameState :=
  ⟨[⟨⟨-0.181125, -0.2415⟩, ⟨0.6, 0.8⟩, 3.0375, false, true⟩,
    ⟨⟨0.5, 0⟩, ⟨0, 0⟩, 0, false, true⟩,
    sentinelBall, sentinelBall, sentinelBall, sentinelBall, sentinelBall],
   false, 0, true⟩

/-- Scenario: a head-on overlap in which ball 0 moves toward ball 1 with
    speed 1.5 while ball 1 moves toward ball 0 with speed 8.5, so ball 1's
    blended post-collision velocity is exactly zero.  Balls 2..6 pocketed. -/
def blendZeroState : GameState :=
  ⟨[⟨⟨0, 0⟩, ⟨1, 0⟩, 1.5, false, true⟩,
    ⟨⟨0.5, 0⟩, ⟨-1, 0⟩, 8.5, false, true⟩,
    sentinelBall, sentinelBall, sentinelBall, sentinelBall, sentinelBall],
   false, 0, true⟩

/-- Scenario: the cue ball and ball 1 are both inside pocket capture disks
    at the same time (the rest of the table is canonical and at rest). -/
def doublePocketState : GameState :=
  ⟨setB cuePocketBalls 1 ⟨⟨0.1, -3.9⟩, ⟨0, 0⟩, 0, false, true⟩,
   false, 0, true⟩

/-- Scenario: ball 1 rolled into the bottom-middle pocket's capture disk;
    everything else canonical and at rest, balls moving. -/
def onePocketState : GameState :=
  ⟨setB tableInit 1 ⟨⟨0.1, -3.9⟩, ⟨0, 0⟩, 0, false, true⟩,
   false, 0, true⟩

/-- Scenario: the canonical table with every ball at rest but the
    balls-moving flag still set (the frame on which play settles). -/
def movingRestState : GameState :=
  ⟨tableInit, false, 0, true⟩

/-- Scenario: mid-charge state, progress one half, cue ball canonical. -/
def chargedHalfState : GameState :=
  ⟨tableInit, true, 0.5, false⟩

/-- Scenario for the zero-speed overlap separation test: ball 0 at distance
    `0.6 - e` left of the resting ball 1, both at rest, balls 2..6
    pocketed. -/
def separationState (e : ℝ) : GameState :=
  ⟨[⟨⟨e - 0.1, 0⟩, ⟨0, 0⟩, 0, false, true⟩,
    ⟨⟨0.5, 0⟩, ⟨0, 0⟩, 0, false, true⟩,
    sentinelBall, sentinelBall, sentinelBall, sentinelBall, sentinelBall],
   false, 0, true⟩

/-! ### Generic numeric helpers -/

theorem sqrt_le_of_sq_le {a b : ℝ} (hb : 0 ≤ b) (h : a ≤ b ^ 2) :
    Real.sqrt a ≤ b := by
  calc Real.sqrt a ≤ Real.sqrt (b ^ 2) := Real.sqrt_le_sqrt h
    _ = b := Real.sqrt_sq hb

theorem sqrt_eq_of_sq {a b : ℝ} (hb : 0 ≤ b) (h : a = b ^ 2) :
    Real.sqrt a = b := by
  rw [h, Real.sqrt_sq hb]

theorem not_sqrt_lt {a b : ℝ} (hb : 0 ≤ b) (h : b ^ 2 ≤ a) :
    ¬ Real.sqrt a < b := by
  intro hlt
  have hs : b ≤ Real.sqrt a := by
    calc b = Real.sqrt (b ^ 2) := (Real.sqrt_sq hb).symm
      _ ≤ Real.sqrt a := Real.sqrt_le_sqrt h
  linarith

theorem not_sqrt_le {a b : ℝ} (hb : 0 ≤ b) (h : b ^ 2 < a) :
    ¬ Real.sqrt a ≤ b := by
  intro hle
  have h0 : (0:ℝ) ≤ a := le_trans (sq_nonneg b) (le_of_lt h)
  have h2 : Real.sqrt a ^ 2 ≤ b ^ 2 := by
    nlinarith [Real.sqrt_nonneg a]
  rw [Real.sq_sqrt h0] at h2
  linarith

theorem sqrt_lt_of_sq {a b : ℝ} (ha : 0 ≤ a) (hb : 0 ≤ b) (h : a < b ^ 2) :
    Real.sqrt a < b := by
  calc Real.sqrt a < Real.sqrt (b ^ 2) := Real.sqrt_lt_sqrt ha h
    _ = b := Real.sqrt_sq hb

/-! ### Ball-array helpers -/

theorem length_setB (bs : List BallState) (i : ℕ) (b : BallState) :
    (setB bs i b).length = bs.length := by
  simp [setB]

theorem getB_setB_self {bs : List BallState} {i : ℕ} (h : i < bs.length)
    (b : BallState) : getB (setB bs i b) i = b := by
  rw [getB, setB, List.getD, List.get?_set_eq_of_lt b h]
  rfl

theorem getB_setB_ne {i j : ℕ} (h : i ≠ j) (bs : List BallState)
    (b : BallState) : getB (setB bs i b) j = getB bs j := by
  rw [getB, setB, List.getD, getB, List.getD, List.get?_set_ne b bs h]

theorem setB_getB_self (bs : List BallState) (i : ℕ) :
    setB bs i (getB bs i) = bs := by
  rw [setB, getB]
  induction bs generalizing i with
  | nil => rfl
  | cons x xs ih =>
    cases i with
    | zero => rfl
    | succ n =>
      show x :: xs.set n (xs.getD n default) = x :: xs
      rw [ih n]

theorem speedSum_setB {bs : List BallState} {i : ℕ} (h : i < bs.length)
    (b : BallState) :
    speedSum (setB bs i b) = speedSum bs - (getB bs i).mod + b.mod := by
  rw [speedSum, speedSum, setB, getB]
  induction bs generalizing i with
  | nil => simp at h
  | cons x xs ih =>
    cases i with
    | zero =>
      simp [List.getD]
      ring
    | succ n =>
      simp only [List.set, List.map_cons, List.sum_cons, List.getD_cons_succ]
      rw [ih (by simpa using h)]
      ring

/-! ### Vector helpers -/

theorem Vector2.length_nonneg (v : Vector2) : 0 ≤ v.length :=
  Real.sqrt_nonneg _

theorem Vector2.normalize_length {v : Vector2} (h : ¬(v.x = 0 ∧ v.y = 0)) :
    v.normalize.length = 1 := by
  have hsq : 0 < v.x ^ 2 + v.y ^ 2 := by
    rcases not_and_or.mp h with hx | hy
    · have h1 : 0 < v.x ^ 2 := by positivity
      nlinarith [sq_nonneg v.y]
    · have h1 : 0 < v.y ^ 2 := by positivity
      nlinarith [sq_nonneg v.x]
  have hl : 0 < v.length := Real.sqrt_pos.mpr hsq
  have hl2 : v.length ^ 2 = v.x ^ 2 + v.y ^ 2 := Real.sq_sqrt (le_of_lt hsq)
  have key : (v.x / v.length) ^ 2 + (v.y / v.length) ^ 2 = 1 := by
    field_simp
    linarith [hl2]
  show Real.sqrt (v.normalize.x ^ 2 + v.normalize.y ^ 2) = 1
  rw [Vector2.normalize]
  dsimp only
  rw [key, Real.sqrt_one]

/-! ### Pocket helper: a ball whose |y| is at most 3.4 is in no pocket. -/

theorem not_isInPocket_of_absY {bs : List BallState} {i : ℕ}
    (h : |(getB bs i).pos.y| ≤ 3.4) : ¬ isInPocket bs i := by
  rintro ⟨p, hp, hle⟩
  have hy1 : (getB bs i).pos.y ≤ 3.4 := (abs_le.mp h).2
  have hy2 : -3.4 ≤ (getB bs i).pos.y := (abs_le.mp h).1
  simp only [pocketsPositions, List.mem_cons, List.not_mem_nil, or_false] at hp
  rcases hp with h1 | h1 | h1 | h1 | h1 | h1 <;> subst h1 <;>
    refine absurd hle (not_sqrt_le (by norm_num [pocketRadius]) ?_) <;>
    · dsimp only [tableWidth, tableHeight, pocketRadius]
      nlinarith [hy1, hy2, sq_nonneg ((getB bs i).pos.y + 3.4),
        sq_nonneg ((getB bs i).pos.y - 3.4),
        sq_nonneg (-0.5 * (15:ℝ) - (getB bs i).pos.x),
        sq_nonneg ((0:ℝ) - (getB bs i).pos.x),
        sq_nonneg (0.5 * (15:ℝ) - (getB bs i).pos.x)]

/-! ### Border-branch helpers -/

theorem borderStep1_id {b : BallState}
    (h : ¬ b.pos.y < -0.5 * tableHeight + ballRadius) : borderStep1 b = b := by
  rw [borderStep1, if_neg h]

theorem borderStep2_id {b : BallState}
    (h : ¬ b.pos.y > 0.5 * tableHeight - ballRadius) : borderStep2 b = b := by
  rw [borderStep2, if_neg h]

theorem borderStep3_id {b : BallState}
    (h : ¬ b.pos.x < -0.5 * tableWidth + ballRadius) : borderStep3 b = b := by
  rw [borderStep3, if_neg h]

theorem borderStep4_id {b : BallState}
    (h : ¬ b.pos.x > 0.5 * tableWidth - ballRadius) : borderStep4 b = b := by
  rw [borderStep4, if_neg h]

/-- `checkBorders` is the identity on a ball inside the inner rectangle. -/
theorem checkBorders_id {bs : List BallState} {i : ℕ}
    (h1 : -0.5 * tableHeight + ballRadius ≤ (getB bs i).pos.y)
    (h2 : (getB bs i).pos.y ≤ 0.5 * tableHeight - ballRadius)
    (h3 : -0.5 * tableWidth + ballRadius ≤ (getB bs i).pos.x)
    (h4 : (getB bs i).pos.x ≤ 0.5 * tableWidth - ballRadius) :
    checkBorders i bs = bs := by
  rw [checkBorders, borderStep1_id (not_lt.mpr h1), borderStep2_id (not_lt.mpr h2),
    borderStep3_id (not_lt.mpr h3), borderStep4_id (not_lt.mpr h4), setB_getB_self]

/-! ### Collision-step helpers -/

theorem collideStep_self (i : ℕ) (acc : List BallState × Bool) :
    collideStep i acc i = acc := by
  rw [collideStep, if_pos rfl]

theorem collideStep_far {i j : ℕ} {acc : List BallState × Bool} (hne : j ≠ i)
    (h : (2 * ballRadius) ^ 2 ≤
      ((getB acc.1 j).pos.x - (getB acc.1 i).pos.x) ^ 2 +
      ((getB acc.1 j).pos.y - (getB acc.1 i).pos.y) ^ 2) :
    collideStep i acc j = acc := by
  rw [collideStep, if_neg hne]
  dsimp only
  rw [if_neg (not_sqrt_lt (by norm_num [ballRadius]) h)]

theorem collideFold_id {i : ℕ} {bs : List BallState} (l : List ℕ)
    (h : ∀ j ∈ l, j = i ∨ (2 * ballRadius) ^ 2 ≤
      ((getB bs j).pos.x - (getB bs i).pos.x) ^ 2 +
      ((getB bs j).pos.y - (getB bs i).pos.y) ^ 2) :
    List.foldl (collideStep i) (bs, false) l = (bs, false) := by
  induction l with
  | nil => rfl
  | cons j t ih =>
    rw [List.foldl_cons]
    by_cases hji : j = i
    · rw [hji, collideStep_self]
      exact ih fun a ha => h a (List.mem_cons_of_mem j ha)
    · rcases h j (List.mem_cons_self j t) with hj | hj
      · exact absurd hj hji
      · rw [@collideStep_far i j (bs, false) hji hj]
        exact ih fun a ha => h a (List.mem_cons_of_mem j ha)

/-! ### moveBall evaluation helpers -/

theorem moveBall_pocket_cue {dt : ℝ} {bs : List BallState}
    (hp : isInPocket bs 0) :
    moveBall dt 0 bs = (tableInit, ⟨some 0, true, false⟩) := by
  unfold moveBall
  rw [if_pos hp, if_pos rfl]

theorem moveBall_pocket_other {dt : ℝ} {i : ℕ} {bs : List BallState}
    (hi : i ≠ 0) (hp : isInPocket bs i) :
    moveBall dt i bs =
      (setB bs i
        { getB bs i with
            pos := ⟨2 * tableWidth, 2 * tableWidth⟩,
            mod := 0,
            pocketed := true,
            mesh := false },
       ⟨some i, false, false⟩) := by
  unfold moveBall
  rw [if_pos hp, if_neg hi]

/-- A resting, pocket-free, inside-the-borders, isolated ball is left
    unchanged by its whole simulation step. -/
theorem moveBall_rest_id {dt : ℝ} {i : ℕ} {bs : List BallState}
    (hdt : 0 ≤ dt)
    (hmod : (getB bs i).mod = 0)
    (hnp : ¬ isInPocket bs i)
    (h1 : -0.5 * tableHeight + ballRadius ≤ (getB bs i).pos.y)
    (h2 : (getB bs i).pos.y ≤ 0.5 * tableHeight - ballRadius)
    (h3 : -0.5 * tableWidth + ballRadius ≤ (getB bs i).pos.x)
    (h4 : (getB bs i).pos.x ≤ 0.5 * tableWidth - ballRadius)
    (hfar : ∀ j ∈ ballIndices, j = i ∨ (2 * ballRadius) ^ 2 ≤
      ((getB bs j).pos.x - (getB bs i).pos.x) ^ 2 +
      ((getB bs j).pos.y - (getB bs i).pos.y) ^ 2) :
    moveBall dt i bs = (bs, ⟨none, false, false⟩) := by
  have hcb : checkBorders i bs = bs := checkBorders_id h1 h2 h3 h4
  have hcc : checkBallCollision i bs = (bs, false) := by
    rw [checkBallCollision]
    exact collideFold_id ballIndices hfar
  have hmax : max ((getB bs i).mod - 0.05 * tableWidth * dt) 0 = 0 := by
    rw [hmod, tableWidth]
    apply max_eq_right
    nlinarith
  have hrec : { getB bs i with
      pos := ⟨(getB bs i).pos.x + (getB bs i).dir.x * (getB bs i).mod * dt,
              (getB bs i).pos.y + (getB bs i).dir.y * (getB bs i).mod * dt⟩,
      mod := max ((getB bs i).mod - 0.05 * tableWidth * dt) 0 } = getB bs i := by
    rcases hE : getB bs i with ⟨⟨px, py⟩, ⟨dx, dy⟩, m, pk, me⟩
    rw [hE] at hmod hmax
    dsimp only at hmod hmax ⊢
    rw [hmod] at hmax ⊢
    rw [hmax]
    norm_num
  unfold moveBall
  rw [if_neg hnp]
  dsimp only
  rw [hcb, hcc]
  dsimp only
  rw [hrec, setB_getB_self]

/-! ### update-loop helpers -/

theorem updateStep_pocketed {dt : ℝ} {i : ℕ} {acc : List BallState × FrameLog}
    (h : (getB acc.1 i).pocketed = true) : updateStep dt acc i = acc := by
  rw [updateStep, if_pos h]

theorem updateStep_run {dt : ℝ} {i : ℕ} {acc : List BallState × FrameLog}
    (h : ¬ (getB acc.1 i).pocketed = true) :
    updateStep dt acc i =
      ((moveBall dt i acc.1).1,
       { processed := acc.2.processed ++ [i],
         pockets := acc.2.pockets ++ (moveBall dt i acc.1).2.pocketEvent.toList,
         reset := acc.2.reset || (moveBall dt i acc.1).2.reset,
         collided := acc.2.collided || (moveBall dt i acc.1).2.collided }) := by
  rw [updateStep, if_neg h]

/-- `updateStep` on a ball that its `moveBall` leaves unchanged. -/
theorem updateStep_rest {dt : ℝ} {i : ℕ} {bs : List BallState} {lg : FrameLog}
    (hmv : moveBall dt i bs = (bs, ⟨none, false, false⟩))
    (hpk : (getB bs i).pocketed = false) :
    updateStep dt (bs, lg) i =
      (bs, { lg with processed := lg.processed ++ [i] }) := by
  rw [updateStep_run (by rw [hpk]; exact Bool.false_ne_true)]
  rw [hmv]
  dsimp only [Option.toList]
  rw [List.append_nil, Bool.or_false, Bool.or_false]

/-! ### Canonical table facts -/

theorem getB_tableInit_0 :
    getB tableInit 0 = ⟨⟨-0.3 * tableWidth, 0⟩, ⟨0, 0⟩, 0, false, true⟩ := rfl

theorem getB_tableInit_1 :
    getB tableInit 1 = ⟨⟨0.2 * tableWidth, 0⟩, ⟨0, 0⟩, 0, false, true⟩ := rfl

theorem getB_tableInit_2 :
    getB tableInit 2 =
      ⟨⟨0.25 * tableWidth, 0.05 * tableHeight⟩, ⟨0, 0⟩, 0, false, true⟩ := rfl

theorem getB_tableInit_3 :
    getB tableInit 3 =
      ⟨⟨0.25 * tableWidth, -0.05 * tableHeight⟩, ⟨0, 0⟩, 0, false, true⟩ := rfl

theorem getB_tableInit_4 :
    getB tableInit 4 =
      ⟨⟨0.3 * tableWidth, 0.1 * tableHeight⟩, ⟨0, 0⟩, 0, false, true⟩ := rfl

theorem getB_tableInit_5 :
    getB tableInit 5 = ⟨⟨0.3 * tableWidth, 0⟩, ⟨0, 0⟩, 0, false, true⟩ := rfl

theorem getB_tableInit_6 :
    getB tableInit 6 =
      ⟨⟨0.3 * tableWidth, -0.1 * tableHeight⟩, ⟨0, 0⟩, 0, false, true⟩ := rfl

theorem length_tableInit : tableInit.length = 7 := rfl

/-- Each ball of the canonical layout is left unchanged by its simulation
    step: away from every pocket, inside the borders, at rest, and at least
    0.8 table units from every other ball. -/
theorem moveBall_tableInit {dt : ℝ} (hdt : 0 ≤ dt) (j : ℕ)
    (hj : j ∈ ballIndices) :
    moveBall dt j tableInit = (tableInit, ⟨none, false, false⟩) := by
  fin_cases hj <;>
  · refine moveBall_rest_id hdt rfl (not_isInPocket_of_absY (by
      norm_num [getB_tableInit_0, getB_tableInit_1, getB_tableInit_2,
        getB_tableInit_3, getB_tableInit_4, getB_tableInit_5,
        getB_tableInit_6, tableHeight, abs_le]))
      (by norm_num [getB_tableInit_0, getB_tableInit_1, getB_tableInit_2,
        getB_tableInit_3, getB_tableInit_4, getB_tableInit_5,
        getB_tableInit_6, tableWidth, tableHeight, ballRadius])
      (by norm_num [getB_tableInit_0, getB_tableInit_1, getB_tableInit_2,
        getB_tableInit_3, getB_tableInit_4, getB_tableInit_5,
        getB_tableInit_6, tableWidth, tableHeight, ballRadius])
      (by norm_num [getB_tableInit_0, getB_tableInit_1, getB_tableInit_2,
        getB_tableInit_3, getB_tableInit_4, getB_tableInit_5,
        getB_tableInit_6, tableWidth, tableHeight, ballRadius])
      (by norm_num [getB_tableInit_0, getB_tableInit_1, getB_tableInit_2,
        getB_tableInit_3, getB_tableInit_4, getB_tableInit_5,
        getB_tableInit_6, tableWidth, tableHeight, ballRadius])
      ?_
    intro a ha
    fin_cases ha <;>
      norm_num [getB_tableInit_0, getB_tableInit_1, getB_tableInit_2,
        getB_tableInit_3, getB_tableInit_4, getB_tableInit_5,
        getB_tableInit_6, tableWidth, tableHeight, ballRadius]

/-- Folding the frame loop tail over the freshly reset table is a no-op
    apart from the processed-ball log. -/
theorem foldTail_tableInit {dt : ℝ} (hdt : 0 ≤ dt) (lg : FrameLog) :
    List.foldl (updateStep dt) (tableInit, lg) [1, 2, 3, 4, 5, 6] =
      (tableInit,
       { lg with processed := lg.processed ++ [1, 2, 3, 4, 5, 6] }) := by
  rw [List.foldl_cons,
    updateStep_rest (moveBall_tableInit hdt 1 (by simp [ballIndices])) rfl]
  rw [List.foldl_cons,
    updateStep_rest (moveBall_tableInit hdt 2 (by simp [ballIndices])) rfl]
  rw [List.foldl_cons,
    updateStep_rest (moveBall_tableInit hdt 3 (by simp [ballIndices])) rfl]
  rw [List.foldl_cons,
    updateStep_rest (moveBall_tableInit hdt 4 (by simp [ballIndices])) rfl]
  rw [List.foldl_cons,
    updateStep_rest (moveBall_tableInit hdt 5 (by simp [ballIndices])) rfl]
  rw [List.foldl_cons,
    updateStep_rest (moveBall_tableInit hdt 6 (by simp [ballIndices])) rfl]
  rw [List.foldl_nil]
  simp

theorem speedSum_tableInit : speedSum tableInit = 0 := by
  norm_num [speedSum, tableInit, ballsPositions]

/-- One frame on the canonical table with the balls-moving flag still set:
    nothing changes, and the flag drops. -/
theorem update_movingRest {dt : ℝ} (hdt : 0 ≤ dt) :
    update dt movingRestState =
      (⟨tableInit, false, 0, false⟩,
       ⟨[0, 1, 2, 3, 4, 5, 6], [], false, false⟩) := by
  unfold update movingRestState
  dsimp only
  rw [if_pos rfl]
  rw [ballIndices, List.foldl_cons,
    updateStep_rest (moveBall_tableInit hdt 0 (by simp [ballIndices])) rfl]
  rw [foldTail_tableInit hdt]
  rw [if_pos speedSum_tableInit]
  simp [emptyLog]

/-- A frame in which the cue ball starts inside a pocket capture disk:
    the table is rebuilt to the canonical layout, the remaining loop
    iterations leave it unchanged, and the moving flag drops. -/
theorem update_cueReset {st : GameState} {dt : ℝ} (hdt : 0 ≤ dt)
    (hmv : st.isBallsMoving = true)
    (hpk : (getB st.balls 0).pocketed = false)
    (hp : isInPocket st.balls 0) :
    (update dt st).1.balls = tableInit ∧
    (update dt st).1.isBallsMoving = false ∧
    (update dt st).2.reset = true ∧
    (update dt st).2.processed = [0, 1, 2, 3, 4, 5, 6] ∧
    (update dt st).2.pockets = [0] := by
  have hfold : ballIndices.foldl (updateStep dt) (st.balls, emptyLog) =
      (tableInit, ⟨[0, 1, 2, 3, 4, 5, 6], [0], true, false⟩) := by
    rw [ballIndices, List.foldl_cons,
      updateStep_run (by rw [hpk]; exact Bool.false_ne_true)]
    rw [moveBall_pocket_cue hp]
    dsimp only [emptyLog, Option.toList]
    rw [foldTail_tableInit hdt]
    simp
  unfold update
  rw [hmv]
  dsimp only
  rw [if_pos rfl, hfold]
  dsimp only
  rw [if_pos speedSum_tableInit]
  exact ⟨rfl, rfl, rfl, rfl, rfl⟩

/-! ### C1: cue-ball pocketing -/

theorem cuePocket_getB_0 :
    getB cuePocketBalls 0 = ⟨⟨-7.4, -3.9⟩, ⟨0, 0⟩, 0, false, true⟩ := by
  rw [cuePocketBalls]
  exact getB_setB_self (by rw [length_tableInit]; norm_num) _

theorem cuePocket_inPocket : isInPocket cuePocketBalls 0 := by
  refine ⟨⟨-0.5 * tableWidth, -0.5 * tableHeight⟩, by simp [pocketsPositions], ?_⟩
  rw [cuePocket_getB_0]
  dsimp only
  refine sqrt_le_of_sq_le (by norm_num [pocketRadius]) ?_
  norm_num [tableWidth, tableHeight, pocketRadius]

/-- Claim C1 (amended): if the cue ball starts a frame within `pocketRadius`
    of some pocket while `isBallsMoving` is set, `update` discards the table
    state and reinitializes it to the canonical starting layout, and the
    frame ends with `isBallsMoving` cleared; however the frame loop is not
    cut short: every remaining ball index is still handed to `moveBall`
    (which leaves the freshly reset table unchanged), so the processed-ball
    trace for the frame is `[0, 1, 2, 3, 4, 5, 6]`, not `[0]`. -/
theorem cue_reset_reinitializes_table (st : GameState) (dt : ℝ) (hdt : 0 ≤ dt)
    (hmv : st.isBallsMoving = true)
    (hpk : (getB st.balls 0).pocketed = false)
    (hp : isInPocket st.balls 0) :
    (update dt st).1.balls = tableInit ∧
    (update dt st).1.isBallsMoving = false ∧
    (update dt st).2.reset = true ∧
    (update dt st).2.processed = [0, 1, 2, 3, 4, 5, 6] := by
  obtain ⟨h1, h2, h3, h4, h5⟩ := update_cueReset hdt hmv hpk hp
  exact ⟨h1, h2, h3, h4⟩

/-- Witness for C1 at a concrete state: the cue ball resting inside the
    bottom-left pocket's capture disk. -/
theorem cue_reset_reinitializes_table_witness :
    (update (1/100) cuePocketState).1.balls = tableInit ∧
    (update (1/100) cuePocketState).1.isBallsMoving = false ∧
    (update (1/100) cuePocketState).2.reset = true ∧
    (update (1/100) cuePocketState).2.processed = [0, 1, 2, 3, 4, 5, 6] :=
  cue_reset_reinitializes_table cuePocketState (1/100) (by norm_num) rfl
    (by rw [show cuePocketState.balls = cuePocketBalls from rfl, cuePocket_getB_0])
    cuePocket_inPocket

/-- Counterexample to C1 as stated: after the cue-ball reset the frame does
    process further balls (the processed-ball trace of the frame is not
    `[0]`), even though the table state itself is the canonical reset. -/
theorem cue_reset_still_processes_rest :
    isInPocket cuePocketState.balls 0 ∧
    cuePocketState.isBallsMoving = true ∧
    (update (1/100) cuePocketState).2.processed ≠ [0] := by
  refine ⟨cuePocket_inPocket, rfl, ?_⟩
  obtain ⟨h1, h2, h3, h4, h5⟩ := @update_cueReset cuePocketState (1/100)
    (show (0:ℝ) ≤ 1/100 by norm_num) rfl
    (by rw [show cuePocketState.balls = cuePocketBalls from rfl, cuePocket_getB_0])
    cuePocket_inPocket
  rw [h4]
  simp

/-! ### C6: non-cue pocketing -/

theorem isInPocket_congr {bs bs' : List BallState} {i i' : ℕ}
    (h : getB bs i = getB bs' i') : isInPocket bs i ↔ isInPocket bs' i' := by
  rw [isInPocket, isInPocket, h]

/-- Being over a pocket depends only on the ball's position. -/
theorem isInPocket_congr_pos {bs bs' : List BallState} {i i' : ℕ}
    (h : (getB bs i).pos = (getB bs' i').pos) :
    isInPocket bs i ↔ isInPocket bs' i' := by
  rw [isInPocket, isInPocket, h]

theorem bool_eq_false {b : Bool} (h : ¬ b = true) : b = false := by
  cases b
  · rfl
  · exact absurd rfl h

/-- The collision step never changes the length of the ball list. -/
theorem collideStep_length (i : ℕ) (acc : List BallState × Bool) (m : ℕ) :
    (collideStep i acc m).1.length = acc.1.length := by
  by_cases hmi : m = i
  · rw [collideStep, if_pos hmi]
  · rw [collideStep, if_neg hmi]
    dsimp only
    by_cases hfire : Real.sqrt
        (((getB acc.1 m).pos.x - (getB acc.1 i).pos.x) ^ 2 +
         ((getB acc.1 m).pos.y - (getB acc.1 i).pos.y) ^ 2) <
        2 * ballRadius
    · rw [if_pos hfire]
      dsimp only
      rw [length_setB, length_setB]
    · rw [if_neg hfire]

theorem collideFold_length (i : ℕ) :
    ∀ (l : List ℕ) (acc : List BallState × Bool),
    (l.foldl (collideStep i) acc).1.length = acc.1.length := by
  intro l
  induction l with
  | nil => intro acc; rfl
  | cons m t ih =>
    intro acc
    rw [List.foldl_cons, ih, collideStep_length]

theorem checkBorders_length (i : ℕ) (bs : List BallState) :
    (checkBorders i bs).length = bs.length := by
  rw [checkBorders, length_setB]

theorem moveBall_length {dt : ℝ} {i : ℕ} {bs : List BallState}
    (h : bs.length = 7) : (moveBall dt i bs).1.length = 7 := by
  unfold moveBall
  split_ifs with h1 h2
  · exact length_tableInit
  · dsimp only
    rw [length_setB]
    exact h
  · dsimp only
    rw [length_setB, checkBallCollision, collideFold_length]
    dsimp only
    rw [checkBorders_length]
    exact h

theorem updateStep_length7 {dt : ℝ} {i : ℕ} {acc : List BallState × FrameLog}
    (h : acc.1.length = 7) : (updateStep dt acc i).1.length = 7 := by
  rw [updateStep]
  split_ifs with hp
  · exact h
  · dsimp only
    exact moveBall_length h

/-- A collision step touches only the current ball's position: every other
    ball keeps its position, pocketed flag and mesh (the partner response
    rewrites only direction and speed). -/
theorem collideStep_partner_fields {i k : ℕ} (hik : i ≠ k)
    {acc : List BallState × Bool} (hk : k < acc.1.length) (m : ℕ) :
    (getB (collideStep i acc m).1 k).pos = (getB acc.1 k).pos ∧
    (getB (collideStep i acc m).1 k).pocketed = (getB acc.1 k).pocketed ∧
    (getB (collideStep i acc m).1 k).mesh = (getB acc.1 k).mesh := by
  by_cases hmi : m = i
  · rw [collideStep, if_pos hmi]
    exact ⟨rfl, rfl, rfl⟩
  · rw [collideStep, if_neg hmi]
    dsimp only
    by_cases hfire : Real.sqrt
        (((getB acc.1 m).pos.x - (getB acc.1 i).pos.x) ^ 2 +
         ((getB acc.1 m).pos.y - (getB acc.1 i).pos.y) ^ 2) <
        2 * ballRadius
    · rw [if_pos hfire]
      dsimp only
      by_cases hkm : k = m
      · subst hkm
        rw [getB_setB_self (by rw [length_setB]; exact hk)]
        exact ⟨rfl, rfl, rfl⟩
      · rw [getB_setB_ne (fun h => hkm h.symm), getB_setB_ne hik]
        exact ⟨rfl, rfl, rfl⟩
    · rw [if_neg hfire]
      exact ⟨rfl, rfl, rfl⟩

theorem collideFold_partner_fields {i k : ℕ} (hik : i ≠ k) :
    ∀ (l : List ℕ) (acc : List BallState × Bool), k < acc.1.length →
    (getB (l.foldl (collideStep i) acc).1 k).pos = (getB acc.1 k).pos ∧
    (getB (l.foldl (collideStep i) acc).1 k).pocketed =
      (getB acc.1 k).pocketed ∧
    (getB (l.foldl (collideStep i) acc).1 k).mesh = (getB acc.1 k).mesh := by
  intro l
  induction l with
  | nil => intro acc hk; exact ⟨rfl, rfl, rfl⟩
  | cons m t ih =>
    intro acc hk
    rw [List.foldl_cons]
    obtain ⟨h1, h2, h3⟩ := collideStep_partner_fields hik hk m
    obtain ⟨g1, g2, g3⟩ := ih (collideStep i acc m)
      (by rw [collideStep_length]; exact hk)
    exact ⟨g1.trans h1, g2.trans h2, g3.trans h3⟩

/-- A whole simulation step for ball `i` that is not a cue reset keeps every
    other ball's position, pocketed flag and mesh. -/
theorem moveBall_partner_fields {dt : ℝ} {i k : ℕ} {bs : List BallState}
    (hik : i ≠ k) (hk : k < bs.length)
    (h0 : i = 0 → ¬ isInPocket bs 0) :
    (getB (moveBall dt i bs).1 k).pos = (getB bs k).pos ∧
    (getB (moveBall dt i bs).1 k).pocketed = (getB bs k).pocketed ∧
    (getB (moveBall dt i bs).1 k).mesh = (getB bs k).mesh := by
  by_cases hp : isInPocket bs i
  · have hi0 : i ≠ 0 := fun h => (h0 h) (h ▸ hp)
    rw [moveBall_pocket_other hi0 hp]
    dsimp only
    rw [getB_setB_ne hik]
    exact ⟨rfl, rfl, rfl⟩
  · unfold moveBall
    rw [if_neg hp]
    dsimp only
    rw [getB_setB_ne hik, checkBallCollision]
    have hcb : getB (checkBorders i bs) k = getB bs k := by
      rw [checkBorders, getB_setB_ne hik]
    obtain ⟨g1, g2, g3⟩ := collideFold_partner_fields hik ballIndices
      (checkBorders i bs, false)
      (by dsimp only; rw [checkBorders_length]; exact hk)
    dsimp only at g1 g2 g3
    rw [hcb] at g1 g2 g3
    exact ⟨g1, g2, g3⟩

theorem updateStep_partner_fields {dt : ℝ} {i k : ℕ}
    {acc : List BallState × FrameLog} (hik : i ≠ k) (hk : k < acc.1.length)
    (h0 : i = 0 → ¬ isInPocket acc.1 0) :
    (getB (updateStep dt acc i).1 k).pos = (getB acc.1 k).pos ∧
    (getB (updateStep dt acc i).1 k).pocketed = (getB acc.1 k).pocketed ∧
    (getB (updateStep dt acc i).1 k).mesh = (getB acc.1 k).mesh := by
  rw [updateStep]
  split_ifs with hp
  · exact ⟨rfl, rfl, rfl⟩
  · dsimp only
    exact moveBall_partner_fields hik hk h0

/-- After the fourth border branch the x coordinate is at most the inner
    right edge, whatever the input was. -/
theorem borderStep4_x_le (b : BallState) :
    (borderStep4 b).pos.x ≤ 0.5 * tableWidth - ballRadius := by
  rw [borderStep4]
  split_ifs with h
  · exact le_refl _
  · exact not_lt.mp h

/-- The separation displacement of a fired collision is at most the firing
    threshold `r` in each coordinate. -/
theorem sep_shift_le {dx dy r : ℝ} (hr : 0 < r)
    (hfire : Real.sqrt (dx ^ 2 + dy ^ 2) < r) :
    -(dx / Real.sqrt (dx ^ 2 + dy ^ 2) *
      (r - Real.sqrt (dx ^ 2 + dy ^ 2))) ≤ r := by
  have hL0 : 0 ≤ Real.sqrt (dx ^ 2 + dy ^ 2) := Real.sqrt_nonneg _
  have hdxL : |dx| ≤ Real.sqrt (dx ^ 2 + dy ^ 2) := by
    rw [show |dx| = Real.sqrt (dx ^ 2) from (Real.sqrt_sq_eq_abs dx).symm]
    exact Real.sqrt_le_sqrt (by nlinarith [sq_nonneg dy])
  rcases eq_or_lt_of_le hL0 with hL | hL
  · rw [← hL, div_zero, zero_mul, neg_zero]
    exact le_of_lt hr
  · have hs : |dx / Real.sqrt (dx ^ 2 + dy ^ 2)| ≤ 1 := by
      rw [abs_div, abs_of_pos hL]
      exact (div_le_one hL).mpr hdxL
    have hrl : 0 ≤ r - Real.sqrt (dx ^ 2 + dy ^ 2) :=
      le_of_lt (sub_pos.mpr hfire)
    calc -(dx / Real.sqrt (dx ^ 2 + dy ^ 2) *
          (r - Real.sqrt (dx ^ 2 + dy ^ 2)))
        ≤ |dx / Real.sqrt (dx ^ 2 + dy ^ 2) *
          (r - Real.sqrt (dx ^ 2 + dy ^ 2))| := neg_le_abs _
      _ = |dx / Real.sqrt (dx ^ 2 + dy ^ 2)| *
          (r - Real.sqrt (dx ^ 2 + dy ^ 2)) := by
          rw [abs_mul, abs_of_nonneg hrl]
      _ ≤ 1 * (r - Real.sqrt (dx ^ 2 + dy ^ 2)) :=
          mul_le_mul_of_nonneg_right hs hrl
      _ ≤ r := by linarith

/-- One collision step moves the current ball's x by at most one ball
    diameter. -/
theorem collideStep_self_x {i : ℕ} {acc : List BallState × Bool}
    (hi : i < acc.1.length) (m : ℕ) :
    (getB (collideStep i acc m).1 i).pos.x ≤
      (getB acc.1 i).pos.x + 2 * ballRadius := by
  have hrad : (0:ℝ) < 2 * ballRadius := by rw [ballRadius]; norm_num
  by_cases hmi : m = i
  · rw [collideStep, if_pos hmi]
    linarith
  · rw [collideStep, if_neg hmi]
    dsimp only
    by_cases hfire : Real.sqrt
        (((getB acc.1 m).pos.x - (getB acc.1 i).pos.x) ^ 2 +
         ((getB acc.1 m).pos.y - (getB acc.1 i).pos.y) ^ 2) <
        2 * ballRadius
    · rw [if_pos hfire]
      dsimp only
      rw [getB_setB_ne hmi, getB_setB_self hi]
      have hsep := sep_shift_le hrad hfire
      dsimp only
      linarith
    · rw [if_neg hfire]
      linarith

/-- Through ball `i`'s collision loop, a partner parked at the sentinel
    `(2*width, 2*width)` is never touched: the current ball starts inside
    the border rectangle and each fired separation moves it by at most one
    diameter, so it can never reach x near 30. -/
theorem collideFold_far_k {i k : ℕ} (hik : i ≠ k) :
    ∀ (l : List ℕ) (acc : List BallState × Bool),
    i < acc.1.length → k < acc.1.length →
    (getB acc.1 k).pos.x = 2 * tableWidth →
    (getB acc.1 i).pos.x + 2 * ballRadius * l.length ≤ 29 →
    getB (l.foldl (collideStep i) acc).1 k = getB acc.1 k := by
  intro l
  induction l with
  | nil => intro acc hi hk hkx hbound; rfl
  | cons m t ih =>
    intro acc hi hk hkx hbound
    rw [List.foldl_cons]
    push_cast [List.length_cons] at hbound
    have htn : (0:ℝ) ≤ (t.length : ℝ) := Nat.cast_nonneg _
    have hkx30 : (getB acc.1 k).pos.x = 30 := by
      rw [hkx, tableWidth]
      norm_num
    have hstep : getB (collideStep i acc m).1 k = getB acc.1 k := by
      by_cases hmi : m = i
      · rw [hmi, collideStep_self]
      · by_cases hmk : m = k
        · subst hmk
          have hdist : (2 * ballRadius) ^ 2 ≤
              ((getB acc.1 m).pos.x - (getB acc.1 i).pos.x) ^ 2 +
              ((getB acc.1 m).pos.y - (getB acc.1 i).pos.y) ^ 2 := by
            rw [ballRadius] at hbound ⊢
            rw [hkx30]
            nlinarith [sq_nonneg
                ((getB acc.1 m).pos.y - (getB acc.1 i).pos.y),
              sq_nonneg (30 - (getB acc.1 i).pos.x - 1.6), htn]
          rw [collideStep_far hmi hdist]
        · rw [collideStep, if_neg hmi]
          dsimp only
          by_cases hfire : Real.sqrt
              (((getB acc.1 m).pos.x - (getB acc.1 i).pos.x) ^ 2 +
               ((getB acc.1 m).pos.y - (getB acc.1 i).pos.y) ^ 2) <
              2 * ballRadius
          · rw [if_pos hfire]
            dsimp only
            rw [getB_setB_ne hmk, getB_setB_ne hik]
          · rw [if_neg hfire]
    have hx' := collideStep_self_x hi m
    have hbound' : (getB (collideStep i acc m).1 i).pos.x +
        2 * ballRadius * t.length ≤ 29 := by
      rw [ballRadius] at hx' hbound ⊢
      linarith
    rw [ih (collideStep i acc m)
      (by rw [collideStep_length]; exact hi)
      (by rw [collideStep_length]; exact hk)
      (by rw [hstep]; exact hkx)
      hbound']
    exact hstep

/-- A simulation step for a surviving ball `i` cannot disturb a ball `k`
    already parked at the pocketed sentinel. -/
theorem moveBall_keeps_sentinel {dt : ℝ} {i k : ℕ} {bs : List BallState}
    (hik : i ≠ k) (hi0 : i ≠ 0) (hi7 : i < 7) (hk7 : k < 7)
    (hL : bs.length = 7)
    (hkx : (getB bs k).pos.x = 2 * tableWidth) :
    getB (moveBall dt i bs).1 k = getB bs k := by
  by_cases hp : isInPocket bs i
  · rw [moveBall_pocket_other hi0 hp]
    dsimp only
    rw [getB_setB_ne hik]
  · unfold moveBall
    rw [if_neg hp]
    dsimp only
    rw [getB_setB_ne hik, checkBallCollision]
    have hcb : getB (checkBorders i bs) k = getB bs k := by
      rw [checkBorders, getB_setB_ne hik]
    have hib : getB (checkBorders i bs) i =
        borderStep4 (borderStep3 (borderStep2 (borderStep1 (getB bs i)))) := by
      rw [checkBorders]
      exact getB_setB_self (by rw [hL]; exact hi7) _
    have hxle : (getB (checkBorders i bs) i).pos.x ≤ 7.2 := by
      rw [hib]
      have h4 := borderStep4_x_le
        (borderStep3 (borderStep2 (borderStep1 (getB bs i))))
      rw [tableWidth, ballRadius] at h4
      linarith
    have hres := collideFold_far_k hik ballIndices (checkBorders i bs, false)
      (by dsimp only; rw [checkBorders_length, hL]; exact hi7)
      (by dsimp only; rw [checkBorders_length, hL]; exact hk7)
      (by dsimp only; rw [hcb]; exact hkx)
      (by
        dsimp only
        rw [ballRadius, show ballIndices.length = 7 from rfl]
        push_cast
        linarith)
    rw [hres]
    dsimp only
    exact hcb

/-- Pocketed-sentinel balls survive the rest of the frame untouched. -/
theorem foldTail_sentinel {dt : ℝ} {k : ℕ} :
    ∀ (l : List ℕ) (acc : List BallState × FrameLog),
    (∀ j ∈ l, j ≠ 0 ∧ j < 7) → acc.1.length = 7 → k < 7 →
    pocketedSentinel (getB acc.1 k) →
    pocketedSentinel (getB (l.foldl (updateStep dt) acc).1 k) := by
  intro l
  induction l with
  | nil => intro acc _ _ _ hS; exact hS
  | cons j t ih =>
    intro acc hl hL hk hS
    rw [List.foldl_cons]
    obtain ⟨hj0, hj7⟩ := hl j (List.mem_cons_self j t)
    have hstep : getB (updateStep dt acc j).1 k = getB acc.1 k := by
      rw [updateStep]
      split_ifs with hp
      · rfl
      · dsimp only
        by_cases hjk : j = k
        · subst hjk
          rw [hS.2.1] at hp
          exact absurd rfl hp
        · exact moveBall_keeps_sentinel hjk hj0 hj7 hk hL (by rw [hS.1])
    refine ih (updateStep dt acc j)
      (fun a ha => hl a (List.mem_cons_of_mem j ha))
      (updateStep_length7 hL) hk ?_
    rw [hstep]
    exact hS

/-- A still-pending pocketed-to-be ball somewhere in the remaining index
    list ends the frame in the sentinel state. -/
theorem foldTail_pockets {dt : ℝ} {k : ℕ} (hk0 : k ≠ 0) (hk : k < 7) :
    ∀ (l : List ℕ) (acc : List BallState × FrameLog),
    (∀ j ∈ l, j ≠ 0 ∧ j < 7) → acc.1.length = 7 →
    (getB acc.1 k).pocketed = false →
    isInPocket acc.1 k →
    k ∈ l →
    pocketedSentinel (getB (l.foldl (updateStep dt) acc).1 k) := by
  intro l
  induction l with
  | nil => intro acc _ _ _ _ hmem; exact absurd hmem (List.not_mem_nil k)
  | cons j t ih =>
    intro acc hl hL hpk hip hmem
    rw [List.foldl_cons]
    obtain ⟨hj0, hj7⟩ := hl j (List.mem_cons_self j t)
    by_cases hjk : j = k
    · subst hjk
      rw [updateStep_run (by rw [hpk]; exact Bool.false_ne_true)]
      refine foldTail_sentinel t _
        (fun a ha => hl a (List.mem_cons_of_mem j ha))
        (by dsimp only; exact moveBall_length hL) hk ?_
      dsimp only
      rw [moveBall_pocket_other hj0 hip]
      dsimp only
      rw [getB_setB_self (by rw [hL]; exact hk)]
      exact ⟨rfl, rfl, rfl, rfl⟩
    · have hpf := @updateStep_partner_fields dt j k acc hjk
        (show k < acc.1.length by rw [hL]; exact hk)
        (fun h => absurd h hj0)
      refine ih (updateStep dt acc j)
        (fun a ha => hl a (List.mem_cons_of_mem j ha))
        (updateStep_length7 hL)
        (by rw [hpf.2.1]; exact hpk)
        ((isInPocket_congr_pos hpf.1).mpr hip) ?_
      rcases List.mem_cons.mp hmem with h | h
      · exact absurd h.symm hjk
      · exact h

/-- Claim C6 (amended): while `isBallsMoving`, a non-cue ball whose position
    is within `pocketRadius` of a pocket center and which is not yet
    pocketed is, after one `update`, left in the pocketed-sentinel state:
    position `(2*width, 2*width)`, zero speed, `isPocketed` set, mesh
    destroyed — provided the cue ball is not itself inside a pocket capture
    disk (else the full reset wins, see the counterexample).  No further
    assumption is needed: collision responses never move another ball's
    position, so the ball is still over its pocket when its own simulation
    step runs, and afterwards no surviving ball can reach the far-off
    sentinel to disturb it. -/
theorem nonCue_pocket_removes_ball (st : GameState) (dt : ℝ) (k : ℕ)
    (hlen : st.balls.length = 7)
    (hmv : st.isBallsMoving = true)
    (hk1 : 1 ≤ k) (hk6 : k ≤ 6)
    (hkpk : (getB st.balls k).pocketed = false)
    (hkp : isInPocket st.balls k)
    (hcue : ¬ isInPocket st.balls 0) :
    pocketedSentinel (getB (update dt st).1.balls k) := by
  have hk7 : k < 7 := by omega
  have hk0 : k ≠ 0 := by omega
  have hballs : (update dt st).1.balls =
      (ballIndices.foldl (updateStep dt) (st.balls, emptyLog)).1 := by
    unfold update
    rw [hmv]
    dsimp only
    rw [if_pos rfl]
  rw [hballs]
  rw [show ballIndices = 0 :: [1, 2, 3, 4, 5, 6] from rfl, List.foldl_cons]
  have hpf := @updateStep_partner_fields dt 0 k (st.balls, emptyLog)
    (fun h => hk0 h.symm)
    (show k < (st.balls, emptyLog).1.length by
      dsimp only; rw [hlen]; exact hk7)
    (fun _ => hcue)
  refine foldTail_pockets hk0 hk7 [1, 2, 3, 4, 5, 6]
    (updateStep dt (st.balls, emptyLog) 0)
    (by intro j hj; fin_cases hj <;> exact ⟨by norm_num, by norm_num⟩)
    (updateStep_length7 (by dsimp only; exact hlen))
    (by rw [hpf.2.1]; exact hkpk)
    ((isInPocket_congr_pos hpf.1).mpr hkp) ?_
  interval_cases k <;> decide
theorem onePocket_getB_1 :
    getB onePocketState.balls 1 = ⟨⟨0.1, -3.9⟩, ⟨0, 0⟩, 0, false, true⟩ := by
  show getB (setB tableInit 1 _) 1 = _
  exact getB_setB_self (by rw [length_tableInit]; norm_num) _

theorem onePocket_getB_ne {j : ℕ} (h : j ≠ 1) :
    getB onePocketState.balls j = getB tableInit j := by
  show getB (setB tableInit 1 _) j = _
  exact getB_setB_ne (fun he => h he.symm) tableInit _

/-- Witness for C6: ball 1 resting inside the bottom-middle pocket's capture
    disk on an otherwise canonical table. -/
theorem nonCue_pocket_removes_ball_witness :
    pocketedSentinel (getB (update (1/100) onePocketState).1.balls 1) := by
  apply nonCue_pocket_removes_ball onePocketState (1/100) 1
  · show (setB tableInit 1 _).length = 7
    rw [length_setB, length_tableInit]
  · rfl
  · norm_num
  · norm_num
  · rw [onePocket_getB_1]
  · refine ⟨⟨0, -0.5 * tableHeight⟩, by simp [pocketsPositions], ?_⟩
    rw [onePocket_getB_1]
    dsimp only
    refine sqrt_le_of_sq_le (by norm_num [pocketRadius]) ?_
    norm_num [tableHeight, pocketRadius]
  · apply not_isInPocket_of_absY
    rw [onePocket_getB_ne (by norm_num), getB_tableInit_0]
    norm_num

theorem doublePocket_getB_0 :
    getB doublePocketState.balls 0 = ⟨⟨-7.4, -3.9⟩, ⟨0, 0⟩, 0, false, true⟩ := by
  show getB (setB cuePocketBalls 1 _) 0 = _
  rw [getB_setB_ne (by norm_num) cuePocketBalls _, cuePocket_getB_0]

theorem doublePocket_getB_1 :
    getB doublePocketState.balls 1 = ⟨⟨0.1, -3.9⟩, ⟨0, 0⟩, 0, false, true⟩ := by
  show getB (setB cuePocketBalls 1 _) 1 = _
  refine getB_setB_self ?_ _
  rw [cuePocketBalls, length_setB, length_tableInit]
  norm_num

/-- Counterexample to C6 as stated: if the cue ball is simultaneously inside
    a pocket capture disk, the full reset wins and the non-cue ball in the
    pocket is NOT marked pocketed after the update. -/
theorem nonCue_pocket_cue_overrides :
    isInPocket doublePocketState.balls 1 ∧
    doublePocketState.isBallsMoving = true ∧
    (getB (update (1/100) doublePocketState).1.balls 1).pocketed = false := by
  refine ⟨⟨⟨0, -0.5 * tableHeight⟩, by simp [pocketsPositions], ?_⟩, rfl, ?_⟩
  · rw [doublePocket_getB_1]
    dsimp only
    refine sqrt_le_of_sq_le (by norm_num [pocketRadius]) ?_
    norm_num [tableHeight, pocketRadius]
  · obtain ⟨h1, h2, h3, h4, h5⟩ := @update_cueReset doublePocketState (1/100)
      (by norm_num) rfl
      (by rw [doublePocket_getB_0])
      (by
        refine ⟨⟨-0.5 * tableWidth, -0.5 * tableHeight⟩,
          by simp [pocketsPositions], ?_⟩
        rw [doublePocket_getB_0]
        dsimp only
        refine sqrt_le_of_sq_le (by norm_num [pocketRadius]) ?_
        norm_num [tableWidth, tableHeight, pocketRadius])
    rw [h1]
    rfl

/-! ### C2: border containment -/

theorem setB_big {bs : List BallState} {i : ℕ} (h : bs.length ≤ i)
    (b : BallState) : setB bs i b = bs := by
  rw [setB]
  induction bs generalizing i with
  | nil => rfl
  | cons x xs ih =>
    cases i with
    | zero => simp at h
    | succ n =>
      show x :: xs.set n b = x :: xs
      rw [ih (by simpa using h)]

theorem getB_big {bs : List BallState} {i : ℕ} (h : bs.length ≤ i) :
    getB bs i = default := by
  rw [getB]
  induction bs generalizing i with
  | nil => rfl
  | cons x xs ih =>
    cases i with
    | zero => simp at h
    | succ n =>
      show xs.getD n default = default
      exact ih (by simpa using h)

/-- Claim C2 (amended): the border-check phase does keep every ball inside
    the inward-offset rectangle — right after `checkBorders` both
    coordinates are clamped into range.  (The full simulation step does not:
    the subsequent collision separation and Euler integration may move the
    ball out again; it is re-clamped only on the next frame.  See the
    counterexample.) -/
theorem checkBorders_clamps_position (bs : List BallState) (i : ℕ) :
    -0.5 * tableWidth + ballRadius ≤ (getB (checkBorders i bs) i).pos.x ∧
    (getB (checkBorders i bs) i).pos.x ≤ 0.5 * tableWidth - ballRadius ∧
    -0.5 * tableHeight + ballRadius ≤ (getB (checkBorders i bs) i).pos.y ∧
    (getB (checkBorders i bs) i).pos.y ≤ 0.5 * tableHeight - ballRadius := by
  have L1y : ∀ b : BallState,
      -0.5 * tableHeight + ballRadius ≤ (borderStep1 b).pos.y := by
    intro b
    rw [borderStep1]
    split_ifs with h
    · exact le_refl _
    · linarith [not_lt.mp h]
  have L1x : ∀ b : BallState, (borderStep1 b).pos.x = b.pos.x := by
    intro b
    rw [borderStep1]
    split_ifs <;> rfl
  have L2top : ∀ b : BallState,
      (borderStep2 b).pos.y ≤ 0.5 * tableHeight - ballRadius := by
    intro b
    rw [borderStep2]
    split_ifs with h
    · exact le_refl _
    · linarith [not_lt.mp h]
  have L2keep : ∀ b : BallState,
      -0.5 * tableHeight + ballRadius ≤ b.pos.y →
      -0.5 * tableHeight + ballRadius ≤ (borderStep2 b).pos.y := by
    intro b hb
    rw [borderStep2]
    split_ifs with h
    · dsimp only
      rw [tableHeight, ballRadius]
      norm_num
    · exact hb
  have L2x : ∀ b : BallState, (borderStep2 b).pos.x = b.pos.x := by
    intro b
    rw [borderStep2]
    split_ifs <;> rfl
  have L3left : ∀ b : BallState,
      -0.5 * tableWidth + ballRadius ≤ (borderStep3 b).pos.x := by
    intro b
    rw [borderStep3]
    split_ifs with h
    · exact le_refl _
    · linarith [not_lt.mp h]
  have L3y : ∀ b : BallState, (borderStep3 b).pos.y = b.pos.y := by
    intro b
    rw [borderStep3]
    split_ifs <;> rfl
  have L4right : ∀ b : BallState,
      (borderStep4 b).pos.x ≤ 0.5 * tableWidth - ballRadius := by
    intro b
    rw [borderStep4]
    split_ifs with h
    · exact le_refl _
    · linarith [not_lt.mp h]
  have L4keep : ∀ b : BallState,
      -0.5 * tableWidth + ballRadius ≤ b.pos.x →
      -0.5 * tableWidth + ballRadius ≤ (borderStep4 b).pos.x := by
    intro b hb
    rw [borderStep4]
    split_ifs with h
    · dsimp only
      rw [tableWidth, ballRadius]
      norm_num
    · exact hb
  have L4y : ∀ b : BallState, (borderStep4 b).pos.y = b.pos.y := by
    intro b
    rw [borderStep4]
    split_ifs <;> rfl
  by_cases hi : i < bs.length
  · rw [checkBorders, getB_setB_self hi _]
    generalize getB bs i = b
    refine ⟨?_, ?_, ?_, ?_⟩
    · exact L4keep _ (L3left _)
    · exact L4right _
    · rw [L4y, L3y]
      exact L2keep _ (L1y b)
    · rw [L4y, L3y]
      exact L2top _
  · rw [checkBorders, setB_big (le_of_not_lt hi) _, getB_big (le_of_not_lt hi)]
    norm_num [show (default : BallState) = ⟨⟨0, 0⟩, ⟨0, 0⟩, 0, false, false⟩
      from rfl, tableWidth, tableHeight, ballRadius]

theorem borderEdge_getB_0 :
    getB borderEdgeState.balls 0 = ⟨⟨7.2, 0⟩, ⟨1, 0⟩, 1, false, true⟩ := rfl

theorem moveBall_borderEdge :
    moveBall (1/10) 0 borderEdgeState.balls =
      (setB borderEdgeState.balls 0 ⟨⟨7.3, 0⟩, ⟨1, 0⟩, 0.925, false, true⟩,
       ⟨none, false, false⟩) := by
  have hnp : ¬ isInPocket borderEdgeState.balls 0 :=
    not_isInPocket_of_absY (by rw [borderEdge_getB_0]; norm_num)
  have hcb : checkBorders 0 borderEdgeState.balls = borderEdgeState.balls :=
    checkBorders_id
      (by rw [borderEdge_getB_0]; norm_num [tableHeight, ballRadius])
      (by rw [borderEdge_getB_0]; norm_num [tableHeight, ballRadius])
      (by rw [borderEdge_getB_0]; norm_num [tableWidth, ballRadius])
      (by rw [borderEdge_getB_0]; norm_num [tableWidth, ballRadius])
  have hcc : checkBallCollision 0 borderEdgeState.balls =
      (borderEdgeState.balls, false) := by
    rw [checkBallCollision]
    refine collideFold_id ballIndices ?_
    intro j hj
    fin_cases hj
    · exact Or.inl rfl
    all_goals
      right
      rw [borderEdge_getB_0]
      norm_num [show getB borderEdgeState.balls 1 = sentinelBall from rfl,
        show getB borderEdgeState.balls 2 = sentinelBall from rfl,
        show getB borderEdgeState.balls 3 = sentinelBall from rfl,
        show getB borderEdgeState.balls 4 = sentinelBall from rfl,
        show getB borderEdgeState.balls 5 = sentinelBall from rfl,
        show getB borderEdgeState.balls 6 = sentinelBall from rfl,
        sentinelBall, ballRadius]
  unfold moveBall
  rw [if_neg hnp]
  dsimp only
  rw [hcb, hcc]
  dsimp only
  rw [borderEdge_getB_0]
  dsimp only
  rw [tableWidth, max_eq_left (by norm_num)]
  norm_num

theorem update_borderEdge_balls :
    (update (1/10) borderEdgeState).1.balls =
      setB borderEdgeState.balls 0 ⟨⟨7.3, 0⟩, ⟨1, 0⟩, 0.925, false, true⟩ := by
  unfold update
  dsimp only
  rw [if_pos (show borderEdgeState.isBallsMoving = true from rfl)]
  rw [ballIndices, List.foldl_cons,
    updateStep_run (by exact Bool.false_ne_true)]
  rw [moveBall_borderEdge]
  dsimp only
  rw [List.foldl_cons, updateStep_pocketed
    (by rw [getB_setB_ne (show (0:ℕ) ≠ 1 by norm_num) borderEdgeState.balls _]; rfl)]
  rw [List.foldl_cons, updateStep_pocketed
    (by rw [getB_setB_ne (show (0:ℕ) ≠ 2 by norm_num) borderEdgeState.balls _]; rfl)]
  rw [List.foldl_cons, updateStep_pocketed
    (by rw [getB_setB_ne (show (0:ℕ) ≠ 3 by norm_num) borderEdgeState.balls _]; rfl)]
  rw [List.foldl_cons, updateStep_pocketed
    (by rw [getB_setB_ne (show (0:ℕ) ≠ 4 by norm_num) borderEdgeState.balls _]; rfl)]
  rw [List.foldl_cons, updateStep_pocketed
    (by rw [getB_setB_ne (show (0:ℕ) ≠ 5 by norm_num) borderEdgeState.balls _]; rfl)]
  rw [List.foldl_cons, updateStep_pocketed
    (by rw [getB_setB_ne (show (0:ℕ) ≠ 6 by norm_num) borderEdgeState.balls _]; rfl)]
  rw [List.foldl_nil]

/-- Counterexample to C2 as stated: a non-pocketed ball that starts a frame
    exactly on the inner border line moving outward ends the simulation
    step at x = 7.3, outside [-7.2, 7.2]: the clamp happens at the start of
    a ball's step, not after its integration. -/
theorem integration_exits_border_rect :
    (getB (update (1/10) borderEdgeState).1.balls 0).pocketed = false ∧
    (getB (update (1/10) borderEdgeState).1.balls 0).pos.x = 7.3 ∧
    ¬ ((getB (update (1/10) borderEdgeState).1.balls 0).pos.x ≤
        0.5 * tableWidth - ballRadius) := by
  rw [update_borderEdge_balls,
    getB_setB_self (by rw [show borderEdgeState.balls.length = 7 from rfl]; norm_num) _]
  refine ⟨rfl, rfl, ?_⟩
  norm_num [tableWidth, ballRadius]

/-! ### C4: border response details -/

/-- Claim C4 (amended): for a ball that has crossed exactly one edge (the
    other axis in range), `checkBorders` clamps the position to that edge
    and inverts the perpendicular direction component, but the speed loss
    `0.15 * speedModulus * (1 + e)` uses `e = |component|` only for the
    bottom and left edges; for the top and right edges the source uses the
    signed component itself, `e = speedDirection.y` resp. `.x`. -/
theorem checkBorders_edge_response (bs : List BallState) (i : ℕ)
    (hi : i < bs.length) :
    ((getB bs i).pos.y < -0.5 * tableHeight + ballRadius →
     -0.5 * tableWidth + ballRadius ≤ (getB bs i).pos.x →
     (getB bs i).pos.x ≤ 0.5 * tableWidth - ballRadius →
      getB (checkBorders i bs) i =
        { getB bs i with
            pos := ⟨(getB bs i).pos.x, -0.5 * tableHeight + ballRadius⟩,
            mod := (getB bs i).mod -
              0.15 * (getB bs i).mod * (1 + |(getB bs i).dir.y|),
            dir := (getB bs i).dir.invertY }) ∧
    ((getB bs i).pos.y > 0.5 * tableHeight - ballRadius →
     -0.5 * tableWidth + ballRadius ≤ (getB bs i).pos.x →
     (getB bs i).pos.x ≤ 0.5 * tableWidth - ballRadius →
      getB (checkBorders i bs) i =
        { getB bs i with
            pos := ⟨(getB bs i).pos.x, 0.5 * tableHeight - ballRadius⟩,
            mod := (getB bs i).mod -
              0.15 * (getB bs i).mod * (1 + (getB bs i).dir.y),
            dir := (getB bs i).dir.invertY }) ∧
    ((getB bs i).pos.x < -0.5 * tableWidth + ballRadius →
     -0.5 * tableHeight + ballRadius ≤ (getB bs i).pos.y →
     (getB bs i).pos.y ≤ 0.5 * tableHeight - ballRadius →
      getB (checkBorders i bs) i =
        { getB bs i with
            pos := ⟨-0.5 * tableWidth + ballRadius, (getB bs i).pos.y⟩,
            mod := (getB bs i).mod -
              0.15 * (getB bs i).mod * (1 + |(getB bs i).dir.x|),
            dir := (getB bs i).dir.invertX }) ∧
    ((getB bs i).pos.x > 0.5 * tableWidth - ballRadius →
     -0.5 * tableHeight + ballRadius ≤ (getB bs i).pos.y →
     (getB bs i).pos.y ≤ 0.5 * tableHeight - ballRadius →
      getB (checkBorders i bs) i =
        { getB bs i with
            pos := ⟨0.5 * tableWidth - ballRadius, (getB bs i).pos.y⟩,
            mod := (getB bs i).mod -
              0.15 * (getB bs i).mod * (1 + (getB bs i).dir.x),
            dir := (getB bs i).dir.invertX }) := by
  refine ⟨?_, ?_, ?_, ?_⟩
  · intro h hx1 hx2
    rw [checkBorders, getB_setB_self hi _]
    rw [borderStep1, if_pos h]
    rw [borderStep2,
      if_neg (by dsimp only; rw [tableHeight, ballRadius]; norm_num)]
    rw [borderStep3, if_neg (by dsimp only; exact not_lt.mpr hx1)]
    rw [borderStep4, if_neg (by dsimp only; exact not_lt.mpr hx2)]
  · intro h hx1 hx2
    have hge : ¬ (getB bs i).pos.y < -0.5 * tableHeight + ballRadius := by
      rw [tableHeight, ballRadius] at h ⊢
      push_neg
      linarith
    rw [checkBorders, getB_setB_self hi _]
    rw [borderStep1, if_neg hge]
    rw [borderStep2, if_pos h]
    rw [borderStep3, if_neg (by dsimp only; exact not_lt.mpr hx1)]
    rw [borderStep4, if_neg (by dsimp only; exact not_lt.mpr hx2)]
  · intro h hy1 hy2
    rw [checkBorders, getB_setB_self hi _]
    rw [borderStep1, if_neg (not_lt.mpr hy1)]
    rw [borderStep2, if_neg (not_lt.mpr hy2)]
    rw [borderStep3, if_pos h]
    rw [borderStep4,
      if_neg (by dsimp only; rw [tableWidth, ballRadius]; norm_num)]
  · intro h hy1 hy2
    have hge : ¬ (getB bs i).pos.x < -0.5 * tableWidth + ballRadius := by
      rw [tableWidth, ballRadius] at h ⊢
      push_neg
      linarith
    rw [checkBorders, getB_setB_self hi _]
    rw [borderStep1, if_neg (not_lt.mpr hy1)]
    rw [borderStep2, if_neg (not_lt.mpr hy2)]
    rw [borderStep3, if_neg hge]
    rw [borderStep4, if_pos h]

/-- Witness for C4: a bottom-edge crossing uses the absolute component
    (loss factor 1 + 0.8), a top-edge crossing with the same downward
    direction uses the signed component (loss factor 1 - 0.8). -/
theorem checkBorders_edge_response_witness :
    (getB (checkBorders 0 [⟨⟨0, -3.8⟩, ⟨0.6, -0.8⟩, 1, false, true⟩]) 0).mod =
      1 - 0.15 * 1 * (1 + |(-0.8 : ℝ)|) ∧
    (getB (checkBorders 0 [⟨⟨0, 3.8⟩, ⟨0.6, -0.8⟩, 1, false, true⟩]) 0).mod =
      1 - 0.15 * 1 * (1 + (-0.8 : ℝ)) := by
  constructor
  · have G : getB [(⟨⟨0, -3.8⟩, ⟨0.6, -0.8⟩, 1, false, true⟩ : BallState)] 0 =
        ⟨⟨0, -3.8⟩, ⟨0.6, -0.8⟩, 1, false, true⟩ := rfl
    have h := (checkBorders_edge_response
      [⟨⟨0, -3.8⟩, ⟨0.6, -0.8⟩, 1, false, true⟩] 0 (by simp)).1
      (by rw [G]; norm_num [tableHeight, ballRadius])
      (by rw [G]; norm_num [tableWidth, ballRadius])
      (by rw [G]; norm_num [tableWidth, ballRadius])
    rw [h, G]
  · have G : getB [(⟨⟨0, 3.8⟩, ⟨0.6, -0.8⟩, 1, false, true⟩ : BallState)] 0 =
        ⟨⟨0, 3.8⟩, ⟨0.6, -0.8⟩, 1, false, true⟩ := rfl
    have h := (checkBorders_edge_response
      [⟨⟨0, 3.8⟩, ⟨0.6, -0.8⟩, 1, false, true⟩] 0 (by simp)).2.1
      (by rw [G]; norm_num [tableHeight, ballRadius])
      (by rw [G]; norm_num [tableWidth, ballRadius])
      (by rw [G]; norm_num [tableWidth, ballRadius])
    rw [h, G]

/-- Counterexample to C4 as stated: crossing the top edge while moving
    downward (direction y = -0.8) loses `0.15 * m * (1 - 0.8)` (the signed
    formula), not `0.15 * m * (1 + |-0.8|)` as the claim's uniform absolute
    formula predicts: the resulting speed is 0.97, not 0.73. -/
theorem border_top_loss_uses_signed_component :
    (getB (checkBorders 0 [⟨⟨0, 3.8⟩, ⟨0.6, -0.8⟩, 1, false, true⟩]) 0).mod
      = 0.97 ∧
    (0.97 : ℝ) ≠ 1 - 0.15 * 1 * (1 + |(-0.8 : ℝ)|) := by
  constructor
  · have G : getB [(⟨⟨0, 3.8⟩, ⟨0.6, -0.8⟩, 1, false, true⟩ : BallState)] 0 =
        ⟨⟨0, 3.8⟩, ⟨0.6, -0.8⟩, 1, false, true⟩ := rfl
    rw [checkBorders, getB_setB_self (by simp) _, G]
    rw [borderStep1, if_neg (by dsimp only; rw [tableHeight, ballRadius]; norm_num)]
    rw [borderStep2, if_pos (by dsimp only; rw [tableHeight, ballRadius]; norm_num)]
    rw [borderStep3, if_neg (by dsimp only; rw [tableWidth, ballRadius]; norm_num)]
    rw [borderStep4, if_neg (by dsimp only; rw [tableWidth, ballRadius]; norm_num)]
    dsimp only
    norm_num
  · rw [abs_of_nonpos (by norm_num)]
    norm_num

/-! ### C7 and C10: mouse release -/

theorem mouseButtonReleased_spec (st : GameState) (x y : ℝ)
    (h : st.isBallsMoving = false) :
    mouseButtonReleased x y st =
      { st with
          balls := setB st.balls 0
            { getB st.balls 0 with
                dir := Vector2.normalize
                  ⟨x - (getB st.balls 0).pos.x, y - (getB st.balls 0).pos.y⟩,
                mod := st.shotChargeProgress * tableWidth },
          isBallsMoving := true,
          isChargingShot := false,
          shotChargeProgress := 0 } := by
  rw [mouseButtonReleased, if_neg (by rw [h]; exact Bool.false_ne_true)]

/-- Claim C7: from any charging state (`isChargingShot` set, balls not
    moving), `mouseButtonReleased (x, y)` aims the cue ball at the
    normalized vector from its position toward `(x, y)`, gives it speed
    `shotChargeProgress * width`, starts the balls moving, and resets the
    charge state. -/
theorem release_aims_cue_ball (st : GameState) (x y : ℝ)
    (hch : st.isChargingShot = true)
    (hmv : st.isBallsMoving = false)
    (hlen : st.balls.length = 7) :
    (getB (mouseButtonReleased x y st).balls 0).dir =
      Vector2.normalize
        ⟨x - (getB st.balls 0).pos.x, y - (getB st.balls 0).pos.y⟩ ∧
    (getB (mouseButtonReleased x y st).balls 0).mod =
      st.shotChargeProgress * tableWidth ∧
    (mouseButtonReleased x y st).isBallsMoving = true ∧
    (mouseButtonReleased x y st).isChargingShot = false ∧
    (mouseButtonReleased x y st).shotChargeProgress = 0 := by
  rw [mouseButtonReleased_spec st x y hmv]
  dsimp only
  rw [getB_setB_self (by rw [hlen]; norm_num) _]
  exact ⟨rfl, rfl, rfl, rfl, rfl⟩

/-- Witness for C7: releasing directly east of the canonical cue ball with
    charge progress one half aims it at `(1, 0)` with speed `0.5 * width`. -/
theorem release_aims_cue_ball_witness :
    (getB (mouseButtonReleased 3 0 chargedHalfState).balls 0).dir = ⟨1, 0⟩ ∧
    (getB (mouseButtonReleased 3 0 chargedHalfState).balls 0).mod =
      0.5 * tableWidth ∧
    (mouseButtonReleased 3 0 chargedHalfState).isBallsMoving = true ∧
    (mouseButtonReleased 3 0 chargedHalfState).isChargingShot = false ∧
    (mouseButtonReleased 3 0 chargedHalfState).shotChargeProgress = 0 := by
  obtain ⟨h1, h2, h3, h4, h5⟩ :=
    release_aims_cue_ball chargedHalfState 3 0 rfl rfl length_tableInit
  refine ⟨?_, ?_, h3, h4, h5⟩
  · rw [h1, show chargedHalfState.balls = tableInit from rfl, getB_tableInit_0]
    dsimp only
    have hv : (⟨3 - -0.3 * tableWidth, 0 - 0⟩ : Vector2) = ⟨7.5, 0⟩ := by
      rw [tableWidth]
      norm_num
    rw [hv, Vector2.normalize,
      show Vector2.length ⟨7.5, 0⟩ = 7.5 from by
        rw [Vector2.length]
        dsimp only
        rw [show (7.5:ℝ) ^ 2 + 0 ^ 2 = 7.5 ^ 2 by ring, Real.sqrt_sq (by norm_num)]]
    norm_num
  · rw [h2]
    rfl

/-- Claim C10: `mouseButtonReleased` requires no charge in progress — any
    state with balls not moving (charging or idle alike) gets the same
    response: aim the cue ball, set speed `shotChargeProgress * width`
    (zero when idle), start the balls moving. -/
theorem release_works_without_charge (st : GameState) (x y : ℝ)
    (hmv : st.isBallsMoving = false)
    (hlen : st.balls.length = 7) :
    (getB (mouseButtonReleased x y st).balls 0).dir =
      Vector2.normalize
        ⟨x - (getB st.balls 0).pos.x, y - (getB st.balls 0).pos.y⟩ ∧
    (getB (mouseButtonReleased x y st).balls 0).mod =
      st.shotChargeProgress * tableWidth ∧
    (mouseButtonReleased x y st).isBallsMoving = true ∧
    (mouseButtonReleased x y st).isChargingShot = false ∧
    (mouseButtonReleased x y st).shotChargeProgress = 0 := by
  rw [mouseButtonReleased_spec st x y hmv]
  dsimp only
  rw [getB_setB_self (by rw [hlen]; norm_num) _]
  exact ⟨rfl, rfl, rfl, rfl, rfl⟩

/-- Witness for C10: in the idle initial state (never charged, progress 0),
    a release still fires the cue ball — with speed 0. -/
theorem release_works_without_charge_witness :
    (getB (mouseButtonReleased 3 0 initialState).balls 0).mod =
      initialState.shotChargeProgress * tableWidth ∧
    (mouseButtonReleased 3 0 initialState).isBallsMoving = true ∧
    initialState.isChargingShot = false := by
  obtain ⟨h1, h2, h3, h4, h5⟩ :=
    release_works_without_charge initialState 3 0 rfl length_tableInit
  exact ⟨h2, h3, rfl⟩

/-! ### C9: flag exclusivity -/

theorem update_isChargingShot (dt : ℝ) (st : GameState) :
    (update dt st).1.isChargingShot = st.isChargingShot := by
  unfold update
  dsimp only
  split_ifs <;> rfl

theorem update_isBallsMoving (dt : ℝ) (st : GameState) :
    (update dt st).1.isBallsMoving = st.isBallsMoving ∨
    (update dt st).1.isBallsMoving = false := by
  unfold update
  dsimp only
  by_cases h1 : st.isBallsMoving = true
  · rw [if_pos h1]
    by_cases h2 : speedSum
        (List.foldl (updateStep dt) (st.balls, emptyLog) ballIndices).1 = 0
    · rw [if_pos h2]
      exact Or.inr rfl
    · rw [if_neg h2]
      exact Or.inl h1.symm
  · rw [if_neg h1]
    exact Or.inl rfl

/-- Claim C9: in every state reachable from `init` by updates and pointer
    events, exactly one of charging / balls-moving / idle holds:
    `isChargingShot` and `isBallsMoving` are never both set. -/
theorem charge_and_motion_exclusive (st : GameState) (h : Reachable st) :
    (st.isChargingShot = true ∧ st.isBallsMoving = false) ∨
    (st.isBallsMoving = true ∧ st.isChargingShot = false) ∨
    (st.isChargingShot = false ∧ st.isBallsMoving = false) := by
  induction h with
  | init => exact Or.inr (Or.inr ⟨rfl, rfl⟩)
  | step dt hr ih =>
    rename_i st1
    have hch := update_isChargingShot dt st1
    rcases update_isBallsMoving dt st1 with hm | hm
    · rcases ih with ⟨h1, h2⟩ | ⟨h1, h2⟩ | ⟨h1, h2⟩
      · exact Or.inl ⟨hch.trans h1, hm.trans h2⟩
      · exact Or.inr (Or.inl ⟨hm.trans h1, hch.trans h2⟩)
      · exact Or.inr (Or.inr ⟨hch.trans h1, hm.trans h2⟩)
    · rcases ih with ⟨h1, h2⟩ | ⟨h1, h2⟩ | ⟨h1, h2⟩
      · exact Or.inl ⟨hch.trans h1, hm⟩
      · exact Or.inr (Or.inr ⟨hch.trans h2, hm⟩)
      · exact Or.inr (Or.inr ⟨hch.trans h1, hm⟩)
  | press x y hr ih =>
    rename_i st1
    rw [mouseButtonPressed]
    split_ifs with hmv
    · exact ih
    · exact Or.inl ⟨rfl, bool_eq_false hmv⟩
  | release x y hr ih =>
    rename_i st1
    rw [mouseButtonReleased]
    split_ifs with hmv
    · exact ih
    · exact Or.inr (Or.inl ⟨rfl, rfl⟩)

/-- Witness for C9: the invariant instantiated at the initial state. -/
theorem charge_and_motion_exclusive_witness :
    (initialState.isChargingShot = true ∧ initialState.isBallsMoving = false) ∨
    (initialState.isBallsMoving = true ∧ initialState.isChargingShot = false) ∨
    (initialState.isChargingShot = false ∧ initialState.isBallsMoving = false) :=
  charge_and_motion_exclusive initialState Reachable.init

/-! ### C5: collision response -/

theorem blendA_zero (s c : ℝ) : blendA 0 0 0 0 s c = ⟨0, 0⟩ := by
  rw [blendA]
  norm_num

theorem blendB_zero (s c : ℝ) : blendB 0 0 0 0 s c = ⟨0, 0⟩ := by
  rw [blendB]
  norm_num

theorem length_zero_vec : Vector2.length ⟨0, 0⟩ = 0 := by
  rw [Vector2.length]
  dsimp only
  rw [show (0:ℝ) ^ 2 + (0:ℝ) ^ 2 = 0 by ring, Real.sqrt_zero]

theorem normalize_zero_vec : Vector2.normalize ⟨0, 0⟩ = ⟨0, 0⟩ := by
  rw [Vector2.normalize]
  norm_num

/-- Explicit form of one fired collision-loop iteration. -/
theorem collideStep_fire {i j : ℕ} {bs : List BallState} {f : Bool}
    (hne : j ≠ i) (len : ℝ)
    (hlen : Real.sqrt (((getB bs j).pos.x - (getB bs i).pos.x) ^ 2 +
      ((getB bs j).pos.y - (getB bs i).pos.y) ^ 2) = len)
    (hfire : len < 2 * ballRadius) :
    collideStep i (bs, f) j =
      (setB (setB bs i
        { getB bs i with
            pos := ⟨(getB bs i).pos.x -
                ((getB bs j).pos.x - (getB bs i).pos.x) / len *
                  (2 * ballRadius - len),
              (getB bs i).pos.y -
                ((getB bs j).pos.y - (getB bs i).pos.y) / len *
                  (2 * ballRadius - len)⟩,
            dir := (blendA
              ((getB bs i).dir.x * (getB bs i).mod *
                  (((getB bs j).pos.x - (getB bs i).pos.x) / len) +
                (getB bs i).dir.y * (getB bs i).mod *
                  (((getB bs j).pos.y - (getB bs i).pos.y) / len))
              ((getB bs j).dir.x * (getB bs j).mod *
                  (((getB bs j).pos.x - (getB bs i).pos.x) / len) +
                (getB bs j).dir.y * (getB bs j).mod *
                  (((getB bs j).pos.y - (getB bs i).pos.y) / len))
              (-(getB bs j).dir.x * (getB bs j).mod *
                  (((getB bs j).pos.y - (getB bs i).pos.y) / len) +
                (getB bs j).dir.y * (getB bs j).mod *
                  (((getB bs j).pos.x - (getB bs i).pos.x) / len))
              (-(getB bs i).dir.x * (getB bs i).mod *
                  (((getB bs j).pos.y - (getB bs i).pos.y) / len) +
                (getB bs i).dir.y * (getB bs i).mod *
                  (((getB bs j).pos.x - (getB bs i).pos.x) / len))
              (((getB bs j).pos.x - (getB bs i).pos.x) / len)
              (((getB bs j).pos.y - (getB bs i).pos.y) / len)).normalize,
            mod := 0.95 * (blendA
              ((getB bs i).dir.x * (getB bs i).mod *
                  (((getB bs j).pos.x - (getB bs i).pos.x) / len) +
                (getB bs i).dir.y * (getB bs i).mod *
                  (((getB bs j).pos.y - (getB bs i).pos.y) / len))
              ((getB bs j).dir.x * (getB bs j).mod *
                  (((getB bs j).pos.x - (getB bs i).pos.x) / len) +
                (getB bs j).dir.y * (getB bs j).mod *
                  (((getB bs j).pos.y - (getB bs i).pos.y) / len))
              (-(getB bs j).dir.x * (getB bs j).mod *
                  (((getB bs j).pos.y - (getB bs i).pos.y) / len) +
                (getB bs j).dir.y * (getB bs j).mod *
                  (((getB bs j).pos.x - (getB bs i).pos.x) / len))
              (-(getB bs i).dir.x * (getB bs i).mod *
                  (((getB bs j).pos.y - (getB bs i).pos.y) / len) +
                (getB bs i).dir.y * (getB bs i).mod *
                  (((getB bs j).pos.x - (getB bs i).pos.x) / len))
              (((getB bs j).pos.x - (getB bs i).pos.x) / len)
              (((getB bs j).pos.y - (getB bs i).pos.y) / len)).length })
        j
        { getB bs j with
            dir := (blendB
              ((getB bs i).dir.x * (getB bs i).mod *
                  (((getB bs j).pos.x - (getB bs i).pos.x) / len) +
                (getB bs i).dir.y * (getB bs i).mod *
                  (((getB bs j).pos.y - (getB bs i).pos.y) / len))
              ((getB bs j).dir.x * (getB bs j).mod *
                  (((getB bs j).pos.x - (getB bs i).pos.x) / len) +
                (getB bs j).dir.y * (getB bs j).mod *
                  (((getB bs j).pos.y - (getB bs i).pos.y) / len))
              (-(getB bs j).dir.x * (getB bs j).mod *
                  (((getB bs j).pos.y - (getB bs i).pos.y) / len) +
                (getB bs j).dir.y * (getB bs j).mod *
                  (((getB bs j).pos.x - (getB bs i).pos.x) / len))
              (-(getB bs i).dir.x * (getB bs i).mod *
                  (((getB bs j).pos.y - (getB bs i).pos.y) / len) +
                (getB bs i).dir.y * (getB bs i).mod *
                  (((getB bs j).pos.x - (getB bs i).pos.x) / len))
              (((getB bs j).pos.x - (getB bs i).pos.x) / len)
              (((getB bs j).pos.y - (getB bs i).pos.y) / len)).normalize,
            mod := 0.95 * (blendB
              ((getB bs i).dir.x * (getB bs i).mod *
                  (((getB bs j).pos.x - (getB bs i).pos.x) / len) +
                (getB bs i).dir.y * (getB bs i).mod *
                  (((getB bs j).pos.y - (getB bs i).pos.y) / len))
              ((getB bs j).dir.x * (getB bs j).mod *
                  (((getB bs j).pos.x - (getB bs i).pos.x) / len) +
                (getB bs j).dir.y * (getB bs j).mod *
                  (((getB bs j).pos.y - (getB bs i).pos.y) / len))
              (-(getB bs j).dir.x * (getB bs j).mod *
                  (((getB bs j).pos.y - (getB bs i).pos.y) / len) +
                (getB bs j).dir.y * (getB bs j).mod *
                  (((getB bs j).pos.x - (getB bs i).pos.x) / len))
              (-(getB bs i).dir.x * (getB bs i).mod *
                  (((getB bs j).pos.y - (getB bs i).pos.y) / len) +
                (getB bs i).dir.y * (getB bs i).mod *
                  (((getB bs j).pos.x - (getB bs i).pos.x) / len))
              (((getB bs j).pos.x - (getB bs i).pos.x) / len)
              (((getB bs j).pos.y - (getB bs i).pos.y) / len)).length },
       true) := by
  rw [collideStep, if_neg hne]
  dsimp only
  rw [hlen, if_pos hfire]

theorem moveBall_separation {e dt : ℝ} (he1 : 0 < e) (he2 : e ≤ 1/10)
    (hdt : 0 ≤ dt) :
    (moveBall dt 0 (separationState e).balls).1 =
      [⟨⟨-0.1, 0⟩, ⟨0, 0⟩, 0, false, true⟩,
       ⟨⟨0.5, 0⟩, ⟨0, 0⟩, 0, false, true⟩,
       sentinelBall, sentinelBall, sentinelBall, sentinelBall, sentinelBall] := by
  have G0 : getB (separationState e).balls 0 =
      ⟨⟨e - 0.1, 0⟩, ⟨0, 0⟩, 0, false, true⟩ := rfl
  have G1 : getB (separationState e).balls 1 =
      ⟨⟨0.5, 0⟩, ⟨0, 0⟩, 0, false, true⟩ := rfl
  have hnp : ¬ isInPocket (separationState e).balls 0 :=
    not_isInPocket_of_absY (by rw [G0]; norm_num)
  have hcb : checkBorders 0 (separationState e).balls =
      (separationState e).balls :=
    checkBorders_id
      (by rw [G0]; dsimp only; rw [tableHeight, ballRadius]; norm_num)
      (by rw [G0]; dsimp only; rw [tableHeight, ballRadius]; norm_num)
      (by rw [G0]; dsimp only; rw [tableWidth, ballRadius]; linarith)
      (by rw [G0]; dsimp only; rw [tableWidth, ballRadius]; linarith)
  have hlen0 : Real.sqrt
      (((getB (separationState e).balls 1).pos.x -
          (getB (separationState e).balls 0).pos.x) ^ 2 +
       ((getB (separationState e).balls 1).pos.y -
          (getB (separationState e).balls 0).pos.y) ^ 2) = 0.6 - e := by
    rw [G0, G1]
    dsimp only
    rw [show ((0.5:ℝ) - (e - 0.1)) ^ 2 + ((0:ℝ) - 0) ^ 2 = (0.6 - e) ^ 2
      by ring]
    exact Real.sqrt_sq (by linarith)
  have hfire : 0.6 - e < 2 * ballRadius := by
    rw [ballRadius]
    linarith
  have hc1 := @collideStep_fire 0 1 (separationState e).balls false
    (show (1:ℕ) ≠ 0 by norm_num) (0.6 - e) hlen0 hfire
  rw [G0, G1] at hc1
  dsimp only at hc1
  rw [show ((0.5:ℝ) - (e - 0.1)) = 0.6 - e by ring] at hc1
  rw [div_self (show (0.6 - e : ℝ) ≠ 0 by intro h; nlinarith)] at hc1
  norm_num [blendA_zero, blendB_zero, normalize_zero_vec, length_zero_vec,
    ballRadius] at hc1
  rw [show (setB
      (setB (separationState e).balls 0
        ⟨⟨-(1/10), 0⟩, ⟨0, 0⟩, 0, false, true⟩)
      1 ⟨⟨1/2, 0⟩, ⟨0, 0⟩, 0, false, true⟩) =
      [⟨⟨-(1/10), 0⟩, ⟨0, 0⟩, 0, false, true⟩,
       ⟨⟨1/2, 0⟩, ⟨0, 0⟩, 0, false, true⟩,
       sentinelBall, sentinelBall, sentinelBall, sentinelBall, sentinelBall]
    from rfl] at hc1
  unfold moveBall
  rw [if_neg hnp]
  dsimp only
  rw [hcb]
  rw [checkBallCollision, ballIndices]
  rw [List.foldl_cons, collideStep_self]
  rw [List.foldl_cons, hc1]
  rw [List.foldl_cons, @collideStep_far 0 2 _ (by norm_num)
    (by norm_num [getB, List.getD, sentinelBall, ballRadius])]
  rw [List.foldl_cons, @collideStep_far 0 3 _ (by norm_num)
    (by norm_num [getB, List.getD, sentinelBall, ballRadius])]
  rw [List.foldl_cons, @collideStep_far 0 4 _ (by norm_num)
    (by norm_num [getB, List.getD, sentinelBall, ballRadius])]
  rw [List.foldl_cons, @collideStep_far 0 5 _ (by norm_num)
    (by norm_num [getB, List.getD, sentinelBall, ballRadius])]
  rw [List.foldl_cons, @collideStep_far 0 6 _ (by norm_num)
    (by norm_num [getB, List.getD, sentinelBall, ballRadius])]
  rw [List.foldl_nil]
  dsimp only
  rw [show getB
      [(⟨⟨-(1/10), 0⟩, ⟨0, 0⟩, 0, false, true⟩ : BallState),
       ⟨⟨1/2, 0⟩, ⟨0, 0⟩, 0, false, true⟩,
       sentinelBall, sentinelBall, sentinelBall, sentinelBall, sentinelBall] 0 =
      ⟨⟨-(1/10), 0⟩, ⟨0, 0⟩, 0, false, true⟩ from rfl]
  dsimp only
  rw [show max ((0:ℝ) - 0.05 * tableWidth * dt) 0 = 0 from
    max_eq_right (by rw [tableWidth]; nlinarith)]
  norm_num [setB, List.set]

theorem unit_of_mod_ne {v : Vector2} (h : 0.95 * v.length ≠ 0) :
    v.normalize.length = 1 := by
  apply Vector2.normalize_length
  rintro ⟨hx, hy⟩
  apply h
  rw [show v = ⟨0, 0⟩ from by rw [show v = ⟨v.x, v.y⟩ from rfl, hx, hy],
    length_zero_vec]
  norm_num

theorem getB_after_collide_i {i j : ℕ} (hne : j ≠ i) {bs : List BallState}
    (hi : i < bs.length) (A B : BallState) :
    getB (setB (setB bs i A) j B) i = A :=
  (getB_setB_ne hne _ _).trans (getB_setB_self hi _)

theorem getB_after_collide_j {i j : ℕ} {bs : List BallState}
    (hj : j < bs.length) (A B : BallState) :
    getB (setB (setB bs i A) j B) j = B :=
  getB_setB_self (by rw [length_setB]; exact hj) _

/-- Claim C5 (amended): (1) two balls placed a shade under one diameter
    apart with zero speed are pushed exactly one diameter apart by one
    simulation step; (2) after a fired collision response, each updated
    direction vector is unit-length whenever its blended velocity (visible
    as the written speed, `0.95 *` its norm) is nonzero.  The original
    unconditional unit-length statement fails: a head-on collision with
    speeds in ratio 17 : 3 makes one blend exactly zero, leaving that
    ball's direction the zero vector (NaN in the float original). -/
theorem collision_separation_and_unit_dirs :
    (∀ (e dt : ℝ), 0 < e → e ≤ 1/10 → 0 ≤ dt →
      2 * ballRadius ≤ Real.sqrt
        (((getB (moveBall dt 0 (separationState e).balls).1 1).pos.x -
            (getB (moveBall dt 0 (separationState e).balls).1 0).pos.x) ^ 2 +
         ((getB (moveBall dt 0 (separationState e).balls).1 1).pos.y -
            (getB (moveBall dt 0 (separationState e).balls).1 0).pos.y) ^ 2)) ∧
    (∀ (bs : List BallState) (i j : ℕ), j ≠ i →
      i < bs.length → j < bs.length →
      (collideStep i (bs, false) j).2 = true →
      (((getB (collideStep i (bs, false) j).1 i).mod ≠ 0 →
          (getB (collideStep i (bs, false) j).1 i).dir.length = 1) ∧
       ((getB (collideStep i (bs, false) j).1 j).mod ≠ 0 →
          (getB (collideStep i (bs, false) j).1 j).dir.length = 1))) := by
  constructor
  · intro e dt he1 he2 hdt
    rw [moveBall_separation he1 he2 hdt]
    norm_num [getB, List.getD, ballRadius]
    rw [show (9:ℝ) = 3 ^ 2 by norm_num, show (25:ℝ) = 5 ^ 2 by norm_num,
      Real.sqrt_sq (by norm_num : (0:ℝ) ≤ 3),
      Real.sqrt_sq (by norm_num : (0:ℝ) ≤ 5)]
  · intro bs i j hne hi hj hflag
    have hfire : Real.sqrt (((getB bs j).pos.x - (getB bs i).pos.x) ^ 2 +
        ((getB bs j).pos.y - (getB bs i).pos.y) ^ 2) < 2 * ballRadius := by
      by_contra hnf
      rw [collideStep, if_neg hne] at hflag
      dsimp only at hflag
      rw [if_neg hnf] at hflag
      exact absurd hflag Bool.false_ne_true
    rw [@collideStep_fire i j bs false hne _ rfl hfire]
    rw [getB_after_collide_i hne hi, getB_after_collide_j hj]
    constructor
    · intro hmod
      dsimp only at hmod ⊢
      exact unit_of_mod_ne hmod
    · intro hmod
      dsimp only at hmod ⊢
      exact unit_of_mod_ne hmod

theorem length_neg7 : Vector2.length ⟨-7, 0⟩ = 7 := by
  rw [Vector2.length]
  dsimp only
  rw [show ((-7:ℝ)) ^ 2 + (0:ℝ) ^ 2 = 7 ^ 2 by ring]
  exact Real.sqrt_sq (by norm_num)

theorem normalize_neg7 : Vector2.normalize ⟨-7, 0⟩ = ⟨-1, 0⟩ := by
  rw [Vector2.normalize, length_neg7]
  norm_num

theorem collideStep_blendZero :
    collideStep 0 (blendZeroState.balls, false) 1 =
      ([⟨⟨-0.1, 0⟩, ⟨-1, 0⟩, 6.65, false, true⟩,
        ⟨⟨0.5, 0⟩, ⟨0, 0⟩, 0, false, true⟩,
        sentinelBall, sentinelBall, sentinelBall, sentinelBall, sentinelBall],
       true) := by
  have G0 : getB blendZeroState.balls 0 =
      ⟨⟨0, 0⟩, ⟨1, 0⟩, 1.5, false, true⟩ := rfl
  have G1 : getB blendZeroState.balls 1 =
      ⟨⟨0.5, 0⟩, ⟨-1, 0⟩, 8.5, false, true⟩ := rfl
  have hlen : Real.sqrt
      (((getB blendZeroState.balls 1).pos.x -
          (getB blendZeroState.balls 0).pos.x) ^ 2 +
       ((getB blendZeroState.balls 1).pos.y -
          (getB blendZeroState.balls 0).pos.y) ^ 2) = 1/2 := by
    rw [G0, G1]
    dsimp only
    rw [show ((0.5:ℝ) - 0) ^ 2 + ((0:ℝ) - 0) ^ 2 = (1/2) ^ 2 by ring]
    exact Real.sqrt_sq (by norm_num)
  have hc := @collideStep_fire 0 1 blendZeroState.balls false
    (by norm_num) (1/2) hlen (by rw [ballRadius]; norm_num)
  rw [G0, G1] at hc
  dsimp only at hc
  norm_num [blendA, blendB, normalize_neg7, length_neg7,
    normalize_zero_vec, length_zero_vec, ballRadius] at hc
  rw [hc]
  norm_num [setB, List.set]

theorem moveBall_blendZero :
    moveBall (1/100) 0 blendZeroState.balls =
      ([⟨⟨-0.1665, 0⟩, ⟨-1, 0⟩, 6.6425, false, true⟩,
        ⟨⟨0.5, 0⟩, ⟨0, 0⟩, 0, false, true⟩,
        sentinelBall, sentinelBall, sentinelBall, sentinelBall, sentinelBall],
       ⟨none, false, true⟩) := by
  have G0 : getB blendZeroState.balls 0 =
      ⟨⟨0, 0⟩, ⟨1, 0⟩, 1.5, false, true⟩ := rfl
  have hnp : ¬ isInPocket blendZeroState.balls 0 :=
    not_isInPocket_of_absY (by rw [G0]; norm_num)
  have hcb : checkBorders 0 blendZeroState.balls = blendZeroState.balls :=
    checkBorders_id
      (by rw [G0]; dsimp only; rw [tableHeight, ballRadius]; norm_num)
      (by rw [G0]; dsimp only; rw [tableHeight, ballRadius]; norm_num)
      (by rw [G0]; dsimp only; rw [tableWidth, ballRadius]; norm_num)
      (by rw [G0]; dsimp only; rw [tableWidth, ballRadius]; norm_num)
  unfold moveBall
  rw [if_neg hnp]
  dsimp only
  rw [hcb]
  rw [checkBallCollision, ballIndices]
  rw [List.foldl_cons, collideStep_self]
  rw [List.foldl_cons, collideStep_blendZero]
  rw [List.foldl_cons, @collideStep_far 0 2 _ (by norm_num)
    (by norm_num [getB, List.getD, sentinelBall, ballRadius])]
  rw [List.foldl_cons, @collideStep_far 0 3 _ (by norm_num)
    (by norm_num [getB, List.getD, sentinelBall, ballRadius])]
  rw [List.foldl_cons, @collideStep_far 0 4 _ (by norm_num)
    (by norm_num [getB, List.getD, sentinelBall, ballRadius])]
  rw [List.foldl_cons, @collideStep_far 0 5 _ (by norm_num)
    (by norm_num [getB, List.getD, sentinelBall, ballRadius])]
  rw [List.foldl_cons, @collideStep_far 0 6 _ (by norm_num)
    (by norm_num [getB, List.getD, sentinelBall, ballRadius])]
  rw [List.foldl_nil]
  dsimp only
  rw [show getB
      [(⟨⟨-0.1, 0⟩, ⟨-1, 0⟩, 6.65, false, true⟩ : BallState),
       ⟨⟨0.5, 0⟩, ⟨0, 0⟩, 0, false, true⟩,
       sentinelBall, sentinelBall, sentinelBall, sentinelBall, sentinelBall] 0 =
      ⟨⟨-0.1, 0⟩, ⟨-1, 0⟩, 6.65, false, true⟩ from rfl]
  dsimp only
  rw [tableWidth, show max ((6.65:ℝ) - 0.05 * 15 * (1/100)) 0 = 6.6425 from by
    rw [max_eq_left (by norm_num)]; norm_num]
  norm_num [setB, List.set]

theorem update_blendZero :
    (update (1/100) blendZeroState).1.balls =
      [⟨⟨-0.1665, 0⟩, ⟨-1, 0⟩, 6.6425, false, true⟩,
       ⟨⟨0.5, 0⟩, ⟨0, 0⟩, 0, false, true⟩,
       sentinelBall, sentinelBall, sentinelBall, sentinelBall, sentinelBall] ∧
    (update (1/100) blendZeroState).2.collided = true := by
  have hmv1 : moveBall (1/100) 1
      [(⟨⟨-0.1665, 0⟩, ⟨-1, 0⟩, 6.6425, false, true⟩ : BallState),
       ⟨⟨0.5, 0⟩, ⟨0, 0⟩, 0, false, true⟩,
       sentinelBall, sentinelBall, sentinelBall, sentinelBall, sentinelBall] =
      ([⟨⟨-0.1665, 0⟩, ⟨-1, 0⟩, 6.6425, false, true⟩,
        ⟨⟨0.5, 0⟩, ⟨0, 0⟩, 0, false, true⟩,
        sentinelBall, sentinelBall, sentinelBall, sentinelBall, sentinelBall],
       ⟨none, false, false⟩) := by
    refine moveBall_rest_id (by norm_num) rfl
      (not_isInPocket_of_absY (by norm_num [getB, List.getD]))
      (by norm_num [getB, List.getD, tableHeight, ballRadius])
      (by norm_num [getB, List.getD, tableHeight, ballRadius])
      (by norm_num [getB, List.getD, tableWidth, ballRadius])
      (by norm_num [getB, List.getD, tableWidth, ballRadius])
      ?_
    intro a ha
    fin_cases ha
    · right
      norm_num [getB, List.getD, ballRadius]
    · exact Or.inl rfl
    all_goals
      right
      norm_num [getB, List.getD, sentinelBall, ballRadius]
  have hfold : ballIndices.foldl (updateStep (1/100))
      (blendZeroState.balls, emptyLog) =
      ([⟨⟨-0.1665, 0⟩, ⟨-1, 0⟩, 6.6425, false, true⟩,
        ⟨⟨0.5, 0⟩, ⟨0, 0⟩, 0, false, true⟩,
        sentinelBall, sentinelBall, sentinelBall, sentinelBall, sentinelBall],
       ⟨[0, 1], [], false, true⟩) := by
    rw [ballIndices, List.foldl_cons,
      updateStep_run (by exact Bool.false_ne_true)]
    rw [moveBall_blendZero]
    dsimp only
    rw [List.foldl_cons, updateStep_run (by exact Bool.false_ne_true)]
    rw [hmv1]
    dsimp only
    rw [List.foldl_cons, updateStep_pocketed (by rfl)]
    rw [List.foldl_cons, updateStep_pocketed (by rfl)]
    rw [List.foldl_cons, updateStep_pocketed (by rfl)]
    rw [List.foldl_cons, updateStep_pocketed (by rfl)]
    rw [List.foldl_cons, updateStep_pocketed (by rfl)]
    rw [List.foldl_nil]
    simp [emptyLog, Option.toList]
  constructor
  · show (update (1/100) blendZeroState).1.balls = _
    unfold update
    dsimp only
    rw [if_pos (show blendZeroState.isBallsMoving = true from rfl)]
    rw [hfold]
  · show (update (1/100) blendZeroState).2.collided = _
    unfold update
    dsimp only
    rw [if_pos (show blendZeroState.isBallsMoving = true from rfl)]
    rw [hfold]

/-- Counterexample to C5 as stated: a collision between two moving balls
    (speeds 1.5 and 8.5, head-on) in which ball 1's post-collision direction
    is the zero vector, not unit-length.  (In the float original this is a
    0/0 = NaN direction.) -/
theorem collision_blend_zeroes_direction :
    (getB blendZeroState.balls 0).mod ≠ 0 ∧
    (getB blendZeroState.balls 1).mod ≠ 0 ∧
    (update (1/100) blendZeroState).2.collided = true ∧
    (getB (update (1/100) blendZeroState).1.balls 1).dir = ⟨0, 0⟩ ∧
    (getB (update (1/100) blendZeroState).1.balls 1).dir.length ≠ 1 := by
  obtain ⟨hb, hc⟩ := update_blendZero
  refine ⟨by
      rw [show getB blendZeroState.balls 0 =
        ⟨⟨0, 0⟩, ⟨1, 0⟩, 1.5, false, true⟩ from rfl]
      norm_num,
    by
      rw [show getB blendZeroState.balls 1 =
        ⟨⟨0.5, 0⟩, ⟨-1, 0⟩, 8.5, false, true⟩ from rfl]
      norm_num,
    hc, ?_, ?_⟩
  · rw [hb]
    rfl
  · rw [hb]
    rw [show (getB
      [(⟨⟨-0.1665, 0⟩, ⟨-1, 0⟩, 6.6425, false, true⟩ : BallState),
       ⟨⟨0.5, 0⟩, ⟨0, 0⟩, 0, false, true⟩,
       sentinelBall, sentinelBall, sentinelBall, sentinelBall, sentinelBall]
      1).dir = ⟨0, 0⟩ from rfl, length_zero_vec]
    norm_num

/-- Witness for C5: the separation conjunct at `e = 1/20`, `dt = 1/100`,
    and the unit-direction conjunct at the blend-zero collision's ball 0
    (whose written speed 6.65 is nonzero). -/
theorem collision_separation_and_unit_dirs_witness :
    2 * ballRadius ≤ Real.sqrt
      (((getB (moveBall (1/100) 0 (separationState (1/20)).balls).1 1).pos.x -
          (getB (moveBall (1/100) 0 (separationState (1/20)).balls).1 0).pos.x) ^ 2 +
       ((getB (moveBall (1/100) 0 (separationState (1/20)).balls).1 1).pos.y -
          (getB (moveBall (1/100) 0 (separationState (1/20)).balls).1 0).pos.y) ^ 2) ∧
    (getB (collideStep 0 (blendZeroState.balls, false) 1).1 0).dir.length = 1 := by
  constructor
  · exact collision_separation_and_unit_dirs.1 (1/20) (1/100)
      (by norm_num) (by norm_num) (by norm_num)
  · refine (collision_separation_and_unit_dirs.2 blendZeroState.balls 0 1
      (by norm_num) (by norm_num [show blendZeroState.balls.length = 7 from rfl])
      (by norm_num [show blendZeroState.balls.length = 7 from rfl])
      (by rw [collideStep_blendZero])).1 ?_
    rw [collideStep_blendZero]
    norm_num [getB, List.getD]


/-! ### C3: energy bookkeeping for a collision-free, pocket-free frame -/

theorem le_sqrt_of_sq_le {a b : ℝ} (hb : 0 ≤ b) (h : b ^ 2 ≤ a) :
    b ≤ Real.sqrt a := by
  calc b = Real.sqrt (b ^ 2) := (Real.sqrt_sq hb).symm
    _ ≤ Real.sqrt a := Real.sqrt_le_sqrt h

/-- Direction components bounded by 1 and nonnegative speed, for every index
    (out-of-range reads give the all-zero default, which qualifies). -/
def BallBounds (bs : List BallState) : Prop :=
  ∀ i, |(getB bs i).dir.x| ≤ 1 ∧ |(getB bs i).dir.y| ≤ 1 ∧
    0 ≤ (getB bs i).mod

theorem borderStep1_bounds {b : BallState}
    (hx : |b.dir.x| ≤ 1) (hy : |b.dir.y| ≤ 1) (hm : 0 ≤ b.mod) :
    |(borderStep1 b).dir.x| ≤ 1 ∧ |(borderStep1 b).dir.y| ≤ 1 ∧
    0 ≤ (borderStep1 b).mod ∧ (borderStep1 b).mod ≤ b.mod := by
  rw [borderStep1]
  split_ifs with h
  · dsimp only [Vector2.invertY]
    refine ⟨hx, by rwa [abs_neg], ?_, ?_⟩
    · nlinarith [abs_nonneg b.dir.y]
    · nlinarith [abs_nonneg b.dir.y]
  · exact ⟨hx, hy, hm, le_refl _⟩

theorem borderStep2_bounds {b : BallState}
    (hx : |b.dir.x| ≤ 1) (hy : |b.dir.y| ≤ 1) (hm : 0 ≤ b.mod) :
    |(borderStep2 b).dir.x| ≤ 1 ∧ |(borderStep2 b).dir.y| ≤ 1 ∧
    0 ≤ (borderStep2 b).mod ∧ (borderStep2 b).mod ≤ b.mod := by
  rw [borderStep2]
  rcases abs_le.mp hy with ⟨hy1, hy2⟩
  split_ifs with h
  · dsimp only [Vector2.invertY]
    refine ⟨hx, by rwa [abs_neg], ?_, ?_⟩
    · nlinarith
    · nlinarith
  · exact ⟨hx, hy, hm, le_refl _⟩

theorem borderStep3_bounds {b : BallState}
    (hx : |b.dir.x| ≤ 1) (hy : |b.dir.y| ≤ 1) (hm : 0 ≤ b.mod) :
    |(borderStep3 b).dir.x| ≤ 1 ∧ |(borderStep3 b).dir.y| ≤ 1 ∧
    0 ≤ (borderStep3 b).mod ∧ (borderStep3 b).mod ≤ b.mod := by
  rw [borderStep3]
  split_ifs with h
  · dsimp only [Vector2.invertX]
    refine ⟨by rwa [abs_neg], hy, ?_, ?_⟩
    · nlinarith [abs_nonneg b.dir.x]
    · nlinarith [abs_nonneg b.dir.x]
  · exact ⟨hx, hy, hm, le_refl _⟩

theorem borderStep4_bounds {b : BallState}
    (hx : |b.dir.x| ≤ 1) (hy : |b.dir.y| ≤ 1) (hm : 0 ≤ b.mod) :
    |(borderStep4 b).dir.x| ≤ 1 ∧ |(borderStep4 b).dir.y| ≤ 1 ∧
    0 ≤ (borderStep4 b).mod ∧ (borderStep4 b).mod ≤ b.mod := by
  rw [borderStep4]
  rcases abs_le.mp hx with ⟨hx1, hx2⟩
  split_ifs with h
  · dsimp only [Vector2.invertX]
    refine ⟨by rwa [abs_neg], hy, ?_, ?_⟩
    · nlinarith
    · nlinarith
  · exact ⟨hx, hy, hm, le_refl _⟩

theorem borderChain_bounds {b : BallState}
    (hx : |b.dir.x| ≤ 1) (hy : |b.dir.y| ≤ 1) (hm : 0 ≤ b.mod) :
    |(borderStep4 (borderStep3 (borderStep2 (borderStep1 b)))).dir.x| ≤ 1 ∧
    |(borderStep4 (borderStep3 (borderStep2 (borderStep1 b)))).dir.y| ≤ 1 ∧
    0 ≤ (borderStep4 (borderStep3 (borderStep2 (borderStep1 b)))).mod ∧
    (borderStep4 (borderStep3 (borderStep2 (borderStep1 b)))).mod ≤ b.mod := by
  obtain ⟨h1x, h1y, h1m, h1le⟩ := borderStep1_bounds hx hy hm
  obtain ⟨h2x, h2y, h2m, h2le⟩ := borderStep2_bounds h1x h1y h1m
  obtain ⟨h3x, h3y, h3m, h3le⟩ := borderStep3_bounds h2x h2y h2m
  obtain ⟨h4x, h4y, h4m, h4le⟩ := borderStep4_bounds h3x h3y h3m
  exact ⟨h4x, h4y, h4m, le_trans h4le (le_trans h3le (le_trans h2le h1le))⟩

theorem collideStep_of_flag_false {i j : ℕ} {acc : List BallState × Bool}
    (h : (collideStep i acc j).2 = false) :
    collideStep i acc j = acc := by
  by_cases hji : j = i
  · rw [collideStep, if_pos hji]
  · rw [collideStep, if_neg hji] at h ⊢
    dsimp only at h ⊢
    by_cases hfire : Real.sqrt
        (((getB acc.1 j).pos.x - (getB acc.1 i).pos.x) ^ 2 +
         ((getB acc.1 j).pos.y - (getB acc.1 i).pos.y) ^ 2) <
        2 * ballRadius
    · rw [if_pos hfire] at h
      exact absurd h (by simp)
    · rw [if_neg hfire]

theorem collideFold_flag_false {i : ℕ} :
    ∀ (l : List ℕ) (acc : List BallState × Bool),
    (l.foldl (collideStep i) acc).2 = false →
    l.foldl (collideStep i) acc = acc := by
  intro l
  induction l with
  | nil => intro acc h; rfl
  | cons j t ih =>
    intro acc h
    rw [List.foldl_cons] at h ⊢
    have h1 := ih (collideStep i acc j) h
    rw [h1] at h ⊢
    exact collideStep_of_flag_false h

theorem checkBallCollision_flag_false {i : ℕ} {bs : List BallState}
    (h : (checkBallCollision i bs).2 = false) :
    checkBallCollision i bs = (bs, false) := by
  rw [checkBallCollision] at h ⊢
  exact collideFold_flag_false ballIndices (bs, false) h

/-- `moveBall` when the ball is not over a pocket and no collision fires:
    borders, then plain Euler integration and friction. -/
theorem moveBall_noPocket_noCollide {dt : ℝ} {i : ℕ} {bs : List BallState}
    (hnp : ¬ isInPocket bs i)
    (hfl : (checkBallCollision i (checkBorders i bs)).2 = false) :
    moveBall dt i bs =
      (setB (checkBorders i bs) i
        { getB (checkBorders i bs) i with
            pos := ⟨(getB (checkBorders i bs) i).pos.x +
                (getB (checkBorders i bs) i).dir.x *
                  (getB (checkBorders i bs) i).mod * dt,
              (getB (checkBorders i bs) i).pos.y +
                (getB (checkBorders i bs) i).dir.y *
                  (getB (checkBorders i bs) i).mod * dt⟩,
            mod := max ((getB (checkBorders i bs) i).mod -
              0.05 * tableWidth * dt) 0 },
       ⟨none, false, false⟩) := by
  have hcc := checkBallCollision_flag_false hfl
  unfold moveBall
  rw [if_neg hnp]
  dsimp only
  rw [hcc]

theorem moveBall_clean_bound {dt : ℝ} {i : ℕ} {bs : List BallState}
    (hdt : 0 ≤ dt) (hb : BallBounds bs)
    (hpe : (moveBall dt i bs).2.pocketEvent = none)
    (hco : (moveBall dt i bs).2.collided = false) :
    speedSum (moveBall dt i bs).1 ≤ speedSum bs ∧
    BallBounds (moveBall dt i bs).1 ∧
    (moveBall dt i bs).1.length = bs.length := by
  have hnp : ¬ isInPocket bs i := by
    intro hp
    rw [moveBall, if_pos hp] at hpe
    by_cases hi : i = 0
    · rw [if_pos hi] at hpe
      exact Option.some_ne_none 0 hpe
    · rw [if_neg hi] at hpe
      exact Option.some_ne_none i hpe
  have hfl : (checkBallCollision i (checkBorders i bs)).2 = false := by
    rw [moveBall, if_neg hnp] at hco
    exact hco
  rw [moveBall_noPocket_noCollide hnp hfl]
  dsimp only
  obtain ⟨hxB, hyB, hmB, hmle⟩ :=
    borderChain_bounds (hb i).1 (hb i).2.1 (hb i).2.2
  rcases Nat.lt_or_ge i bs.length with hi7 | hi7
  · rw [show checkBorders i bs =
      setB bs i (borderStep4 (borderStep3 (borderStep2 (borderStep1
        (getB bs i))))) from rfl]
    rw [getB_setB_self hi7]
    have hw : 0 ≤ 0.05 * tableWidth * dt := by
      rw [tableWidth]; nlinarith
    have hmax1 :
        max ((borderStep4 (borderStep3 (borderStep2 (borderStep1
          (getB bs i))))).mod - 0.05 * tableWidth * dt) 0 ≤
        (borderStep4 (borderStep3 (borderStep2 (borderStep1
          (getB bs i))))).mod :=
      max_le (by linarith) hmB
    have hi7s : i < (setB bs i (borderStep4 (borderStep3 (borderStep2
        (borderStep1 (getB bs i)))))).length := by
      rw [length_setB]; exact hi7
    refine ⟨?_, ?_, ?_⟩
    · rw [speedSum_setB hi7s, speedSum_setB hi7, getB_setB_self hi7]
      dsimp only
      linarith
    · intro k
      by_cases hk : k = i
      · subst hk
        rw [getB_setB_self (by rw [length_setB]; exact hi7)]
        dsimp only
        exact ⟨hxB, hyB, le_max_right _ _⟩
      · rw [getB_setB_ne (fun h => hk h.symm),
          getB_setB_ne (fun h => hk h.symm)]
        exact hb k
    · rw [length_setB, length_setB]
  · have hbig1 : checkBorders i bs = bs := by
      rw [checkBorders, setB_big hi7]
    rw [hbig1, setB_big hi7]
    exact ⟨le_refl _, hb, rfl⟩

theorem updateFold_collided_mono {dt : ℝ} :
    ∀ (l : List ℕ) (acc : List BallState × FrameLog),
    acc.2.collided = true →
    (l.foldl (updateStep dt) acc).2.collided = true := by
  intro l
  induction l with
  | nil => intro acc h; exact h
  | cons j t ih =>
    intro acc h
    rw [List.foldl_cons]
    apply ih
    rw [updateStep]
    split_ifs with hp
    · exact h
    · dsimp only
      rw [h]
      simp

theorem updateFold_pockets_mono {dt : ℝ} :
    ∀ (l : List ℕ) (acc : List BallState × FrameLog),
    acc.2.pockets.length ≤ (l.foldl (updateStep dt) acc).2.pockets.length := by
  intro l
  induction l with
  | nil => intro acc; exact le_refl _
  | cons j t ih =>
    intro acc
    rw [List.foldl_cons]
    refine le_trans ?_ (ih (updateStep dt acc j))
    rw [updateStep]
    split_ifs with hp
    · exact le_refl _
    · dsimp only
      rw [List.length_append]
      exact Nat.le_add_right _ _

theorem updateFold_clean_bound {dt : ℝ} (hdt : 0 ≤ dt) :
    ∀ (l : List ℕ) (acc : List BallState × FrameLog),
    BallBounds acc.1 →
    (l.foldl (updateStep dt) acc).2.collided = false →
    (l.foldl (updateStep dt) acc).2.pockets.length = acc.2.pockets.length →
    speedSum (l.foldl (updateStep dt) acc).1 ≤ speedSum acc.1 := by
  intro l
  induction l with
  | nil => intro acc _ _ _; exact le_refl _
  | cons j t ih =>
    intro acc hb hcol hpk
    rw [List.foldl_cons] at hcol hpk ⊢
    by_cases hp : (getB acc.1 j).pocketed = true
    · rw [updateStep_pocketed hp] at hcol hpk ⊢
      exact ih acc hb hcol hpk
    · rw [updateStep_run hp] at hcol hpk ⊢
      have hcol' : (acc.2.collided || (moveBall dt j acc.1).2.collided)
          = false := by
        cases hcase : (acc.2.collided || (moveBall dt j acc.1).2.collided) with
        | false => rfl
        | true =>
          exfalso
          have hmono := @updateFold_collided_mono dt t
            ((moveBall dt j acc.1).1,
             { processed := acc.2.processed ++ [j],
               pockets := acc.2.pockets ++
                 (moveBall dt j acc.1).2.pocketEvent.toList,
               reset := acc.2.reset || (moveBall dt j acc.1).2.reset,
               collided := acc.2.collided ||
                 (moveBall dt j acc.1).2.collided })
            (by dsimp only; exact hcase)
          rw [hmono] at hcol
          exact absurd hcol (by simp)
      have hco : (moveBall dt j acc.1).2.collided = false :=
        (Bool.or_eq_false_iff.mp hcol').2
      have hpkmono := @updateFold_pockets_mono dt t
        ((moveBall dt j acc.1).1,
         { processed := acc.2.processed ++ [j],
           pockets := acc.2.pockets ++
             (moveBall dt j acc.1).2.pocketEvent.toList,
           reset := acc.2.reset || (moveBall dt j acc.1).2.reset,
           collided := acc.2.collided || (moveBall dt j acc.1).2.collided })
      have hpe : (moveBall dt j acc.1).2.pocketEvent = none := by
        rcases hopt : (moveBall dt j acc.1).2.pocketEvent with _ | k
        · rfl
        · exfalso
          rw [hopt] at hpk hpkmono
          rw [hpk] at hpkmono
          simp [Option.toList] at hpkmono
      obtain ⟨hsle, hbb, _⟩ := moveBall_clean_bound hdt hb
        (by rw [hpe]) hco
      have hlog2 : (acc.2.pockets ++
          (moveBall dt j acc.1).2.pocketEvent.toList) = acc.2.pockets := by
        rw [hpe]
        simp [Option.toList]
      refine le_trans (ih _ hbb hcol ?_) hsle
      · rw [hlog2] at hpk ⊢
        exact hpk

theorem ballBounds_tableInit : BallBounds tableInit := by
  intro i
  rcases Nat.lt_or_ge i 7 with h | h
  · interval_cases i
    · rw [getB_tableInit_0]; norm_num
    · rw [getB_tableInit_1]; norm_num
    · rw [getB_tableInit_2]; norm_num
    · rw [getB_tableInit_3]; norm_num
    · rw [getB_tableInit_4]; norm_num
    · rw [getB_tableInit_5]; norm_num
    · rw [getB_tableInit_6]; norm_num
  · rw [getB_big (by rw [length_tableInit]; exact h)]
    norm_num [show (default : BallState) =
      ⟨⟨0, 0⟩, ⟨0, 0⟩, 0, false, false⟩ from rfl]

/-- Claim C3 (amended): the original claim promises that `speedSum` never
    increases across a frame with no pocketing, crediting friction, border
    losses and collision losses as pure energy sinks.  That is false: the
    collision response blends the two incoming velocities with weights
    0.85/0.15 on each ball, which can increase the summed speeds (see the
    counterexample).  The amended guarantee: across any frame in which no
    ball is pocketed and no collision response fires, if every direction
    component is bounded by 1 and every speed is nonnegative, then
    `speedSum` does not increase (friction and border losses only remove
    energy). -/
theorem speed_sum_monotone_without_collisions (dt : ℝ) (st : GameState)
    (hdt : 0 ≤ dt) (hb : BallBounds st.balls)
    (hcol : (update dt st).2.collided = false)
    (hpk : (update dt st).2.pockets = []) :
    speedSum (update dt st).1.balls ≤ speedSum st.balls := by
  by_cases hmv : st.isBallsMoving = true
  · unfold update at hcol hpk ⊢
    dsimp only at hcol hpk ⊢
    rw [if_pos hmv] at hcol hpk ⊢
    dsimp only at hcol hpk ⊢
    refine updateFold_clean_bound hdt ballIndices (st.balls, emptyLog)
      hb hcol ?_
    rw [hpk]
    rfl
  · unfold update
    dsimp only
    rw [if_neg hmv]

theorem speed_sum_monotone_without_collisions_witness :
    (0:ℝ) ≤ 1 ∧ BallBounds movingRestState.balls ∧
    (update 1 movingRestState).2.collided = false ∧
    (update 1 movingRestState).2.pockets = [] ∧
    speedSum (update 1 movingRestState).1.balls ≤
      speedSum movingRestState.balls := by
  have h1 : (0:ℝ) ≤ 1 := by norm_num
  have hb : BallBounds movingRestState.balls := ballBounds_tableInit
  have hcol : (update 1 movingRestState).2.collided = false := by
    rw [update_movingRest h1]
  have hpk : (update 1 movingRestState).2.pockets = [] := by
    rw [update_movingRest h1]
  exact ⟨h1, hb, hcol, hpk,
    speed_sum_monotone_without_collisions 1 movingRestState h1 hb hcol hpk⟩

theorem moveBall_pump1_0 :
    moveBall (1/20) 0
      [⟨⟨-0.181125, -0.2415⟩, ⟨0.6, 0.8⟩, 3.0375, false, true⟩,
       ⟨⟨0.5, 0⟩, ⟨0, 0⟩, 0, false, true⟩,
       sentinelBall, sentinelBall, sentinelBall, sentinelBall, sentinelBall] =
      ([⟨⟨-0.09, -0.12⟩, ⟨0.6, 0.8⟩, 3, false, true⟩,
        ⟨⟨0.5, 0⟩, ⟨0, 0⟩, 0, false, true⟩,
        sentinelBall, sentinelBall, sentinelBall, sentinelBall, sentinelBall],
       ⟨none, false, false⟩) := by
  have hnp : ¬ isInPocket
      [(⟨⟨-0.181125, -0.2415⟩, ⟨0.6, 0.8⟩, 3.0375, false, true⟩ : BallState),
       ⟨⟨0.5, 0⟩, ⟨0, 0⟩, 0, false, true⟩,
       sentinelBall, sentinelBall, sentinelBall, sentinelBall, sentinelBall]
      0 :=
    not_isInPocket_of_absY (by norm_num [getB, List.getD, abs_le])
  have hcb : checkBorders 0
      [(⟨⟨-0.181125, -0.2415⟩, ⟨0.6, 0.8⟩, 3.0375, false, true⟩ : BallState),
       ⟨⟨0.5, 0⟩, ⟨0, 0⟩, 0, false, true⟩,
       sentinelBall, sentinelBall, sentinelBall, sentinelBall, sentinelBall] =
      [⟨⟨-0.181125, -0.2415⟩, ⟨0.6, 0.8⟩, 3.0375, false, true⟩,
       ⟨⟨0.5, 0⟩, ⟨0, 0⟩, 0, false, true⟩,
       sentinelBall, sentinelBall, sentinelBall, sentinelBall, sentinelBall] :=
    checkBorders_id
      (by norm_num [getB, List.getD, tableHeight, ballRadius])
      (by norm_num [getB, List.getD, tableHeight, ballRadius])
      (by norm_num [getB, List.getD, tableWidth, ballRadius])
      (by norm_num [getB, List.getD, tableWidth, ballRadius])
  have hcc : checkBallCollision 0
      [(⟨⟨-0.181125, -0.2415⟩, ⟨0.6, 0.8⟩, 3.0375, false, true⟩ : BallState),
       ⟨⟨0.5, 0⟩, ⟨0, 0⟩, 0, false, true⟩,
       sentinelBall, sentinelBall, sentinelBall, sentinelBall, sentinelBall] =
      ([⟨⟨-0.181125, -0.2415⟩, ⟨0.6, 0.8⟩, 3.0375, false, true⟩,
        ⟨⟨0.5, 0⟩, ⟨0, 0⟩, 0, false, true⟩,
        sentinelBall, sentinelBall, sentinelBall, sentinelBall, sentinelBall],
       false) := by
    rw [checkBallCollision]
    refine collideFold_id ballIndices ?_
    intro j hj
    fin_cases hj
    · exact Or.inl rfl
    all_goals
      right
      norm_num [getB, List.getD, sentinelBall, ballRadius]
  unfold moveBall
  rw [if_neg hnp]
  dsimp only
  rw [hcb, hcc]
  dsimp only
  rw [show getB
      [(⟨⟨-0.181125, -0.2415⟩, ⟨0.6, 0.8⟩, 3.0375, false, true⟩ : BallState),
       ⟨⟨0.5, 0⟩, ⟨0, 0⟩, 0, false, true⟩,
       sentinelBall, sentinelBall, sentinelBall, sentinelBall, sentinelBall]
      0 = ⟨⟨-0.181125, -0.2415⟩, ⟨0.6, 0.8⟩, 3.0375, false, true⟩ from rfl]
  dsimp only
  rw [tableWidth, show max ((3.0375:ℝ) - 0.05 * 15 * (1/20)) 0 = 3 from by
    rw [max_eq_left (by norm_num)]; norm_num]
  norm_num [setB, List.set]

theorem moveBall_pump2_0 :
    moveBall (1/20) 0
      [⟨⟨-0.09, -0.12⟩, ⟨0.6, 0.8⟩, 3, false, true⟩,
       ⟨⟨0.5, 0⟩, ⟨0, 0⟩, 0, false, true⟩,
       sentinelBall, sentinelBall, sentinelBall, sentinelBall, sentinelBall] =
      ([⟨⟨0, 0⟩, ⟨0.6, 0.8⟩, 2.9625, false, true⟩,
        ⟨⟨0.5, 0⟩, ⟨0, 0⟩, 0, false, true⟩,
        sentinelBall, sentinelBall, sentinelBall, sentinelBall, sentinelBall],
       ⟨none, false, false⟩) := by
  have hnp : ¬ isInPocket
      [(⟨⟨-0.09, -0.12⟩, ⟨0.6, 0.8⟩, 3, false, true⟩ : BallState),
       ⟨⟨0.5, 0⟩, ⟨0, 0⟩, 0, false, true⟩,
       sentinelBall, sentinelBall, sentinelBall, sentinelBall, sentinelBall]
      0 :=
    not_isInPocket_of_absY (by norm_num [getB, List.getD, abs_le])
  have hcb : checkBorders 0
      [(⟨⟨-0.09, -0.12⟩, ⟨0.6, 0.8⟩, 3, false, true⟩ : BallState),
       ⟨⟨0.5, 0⟩, ⟨0, 0⟩, 0, false, true⟩,
       sentinelBall, sentinelBall, sentinelBall, sentinelBall, sentinelBall] =
      [⟨⟨-0.09, -0.12⟩, ⟨0.6, 0.8⟩, 3, false, true⟩,
       ⟨⟨0.5, 0⟩, ⟨0, 0⟩, 0, false, true⟩,
       sentinelBall, sentinelBall, sentinelBall, sentinelBall, sentinelBall] :=
    checkBorders_id
      (by norm_num [getB, List.getD, tableHeight, ballRadius])
      (by norm_num [getB, List.getD, tableHeight, ballRadius])
      (by norm_num [getB, List.getD, tableWidth, ballRadius])
      (by norm_num [getB, List.getD, tableWidth, ballRadius])
  have hcc : checkBallCollision 0
      [(⟨⟨-0.09, -0.12⟩, ⟨0.6, 0.8⟩, 3, false, true⟩ : BallState),
       ⟨⟨0.5, 0⟩, ⟨0, 0⟩, 0, false, true⟩,
       sentinelBall, sentinelBall, sentinelBall, sentinelBall, sentinelBall] =
      ([⟨⟨-0.09, -0.12⟩, ⟨0.6, 0.8⟩, 3, false, true⟩,
        ⟨⟨0.5, 0⟩, ⟨0, 0⟩, 0, false, true⟩,
        sentinelBall, sentinelBall, sentinelBall, sentinelBall, sentinelBall],
       false) := by
    rw [checkBallCollision]
    refine collideFold_id ballIndices ?_
    intro j hj
    fin_cases hj
    · exact Or.inl rfl
    all_goals
      right
      norm_num [getB, List.getD, sentinelBall, ballRadius]
  unfold moveBall
  rw [if_neg hnp]
  dsimp only
  rw [hcb, hcc]
  dsimp only
  rw [show getB
      [(⟨⟨-0.09, -0.12⟩, ⟨0.6, 0.8⟩, 3, false, true⟩ : BallState),
       ⟨⟨0.5, 0⟩, ⟨0, 0⟩, 0, false, true⟩,
       sentinelBall, sentinelBall, sentinelBall, sentinelBall, sentinelBall]
      0 = ⟨⟨-0.09, -0.12⟩, ⟨0.6, 0.8⟩, 3, false, true⟩ from rfl]
  dsimp only
  rw [tableWidth, show max ((3:ℝ) - 0.05 * 15 * (1/20)) 0 = 2.9625 from by
    rw [max_eq_left (by norm_num)]; norm_num]
  norm_num [setB, List.set]

theorem collideStep_pump :
    collideStep 1
      ([⟨⟨0, 0⟩, ⟨0.6, 0.8⟩, 2.9625, false, true⟩,
        ⟨⟨0.5, 0⟩, ⟨0, 0⟩, 0, false, true⟩,
        sentinelBall, sentinelBall, sentinelBall, sentinelBall, sentinelBall],
       false) 0 =
      ([⟨⟨0, 0⟩, Vector2.normalize ⟨0.266625, 2.0145⟩,
          0.95 * Vector2.length ⟨0.266625, 2.0145⟩, false, true⟩,
        ⟨⟨0.6, 0⟩, Vector2.normalize ⟨1.510875, 0.3555⟩,
          0.95 * Vector2.length ⟨1.510875, 0.3555⟩, false, true⟩,
        sentinelBall, sentinelBall, sentinelBall, sentinelBall, sentinelBall],
       true) := by
  have G1 : getB
      [(⟨⟨0, 0⟩, ⟨0.6, 0.8⟩, 2.9625, false, true⟩ : BallState),
       ⟨⟨0.5, 0⟩, ⟨0, 0⟩, 0, false, true⟩,
       sentinelBall, sentinelBall, sentinelBall, sentinelBall, sentinelBall]
      1 = ⟨⟨0.5, 0⟩, ⟨0, 0⟩, 0, false, true⟩ := rfl
  have G0 : getB
      [(⟨⟨0, 0⟩, ⟨0.6, 0.8⟩, 2.9625, false, true⟩ : BallState),
       ⟨⟨0.5, 0⟩, ⟨0, 0⟩, 0, false, true⟩,
       sentinelBall, sentinelBall, sentinelBall, sentinelBall, sentinelBall]
      0 = ⟨⟨0, 0⟩, ⟨0.6, 0.8⟩, 2.9625, false, true⟩ := rfl
  have hlen : Real.sqrt
      (((getB
          [(⟨⟨0, 0⟩, ⟨0.6, 0.8⟩, 2.9625, false, true⟩ : BallState),
           ⟨⟨0.5, 0⟩, ⟨0, 0⟩, 0, false, true⟩,
           sentinelBall, sentinelBall, sentinelBall, sentinelBall,
           sentinelBall] 0).pos.x -
        (getB
          [(⟨⟨0, 0⟩, ⟨0.6, 0.8⟩, 2.9625, false, true⟩ : BallState),
           ⟨⟨0.5, 0⟩, ⟨0, 0⟩, 0, false, true⟩,
           sentinelBall, sentinelBall, sentinelBall, sentinelBall,
           sentinelBall] 1).pos.x) ^ 2 +
       ((getB
          [(⟨⟨0, 0⟩, ⟨0.6, 0.8⟩, 2.9625, false, true⟩ : BallState),
           ⟨⟨0.5, 0⟩, ⟨0, 0⟩, 0, false, true⟩,
           sentinelBall, sentinelBall, sentinelBall, sentinelBall,
           sentinelBall] 0).pos.y -
        (getB
          [(⟨⟨0, 0⟩, ⟨0.6, 0.8⟩, 2.9625, false, true⟩ : BallState),
           ⟨⟨0.5, 0⟩, ⟨0, 0⟩, 0, false, true⟩,
           sentinelBall, sentinelBall, sentinelBall, sentinelBall,
           sentinelBall] 1).pos.y) ^ 2) = 1/2 := by
    rw [G0, G1]
    dsimp only
    rw [show ((0:ℝ) - 0.5) ^ 2 + ((0:ℝ) - 0) ^ 2 = (1/2) ^ 2 by norm_num]
    exact Real.sqrt_sq (by norm_num)
  rw [@collideStep_fire 1 0
    [(⟨⟨0, 0⟩, ⟨0.6, 0.8⟩, 2.9625, false, true⟩ : BallState),
     ⟨⟨0.5, 0⟩, ⟨0, 0⟩, 0, false, true⟩,
     sentinelBall, sentinelBall, sentinelBall, sentinelBall, sentinelBall]
    false (by norm_num) (1/2) hlen (by rw [ballRadius]; norm_num)]
  rw [G0, G1]
  dsimp only
  norm_num [blendA, blendB, ballRadius, setB, List.set]

theorem moveBall_pump2_1 :
    moveBall (1/20) 1
      [⟨⟨0, 0⟩, ⟨0.6, 0.8⟩, 2.9625, false, true⟩,
       ⟨⟨0.5, 0⟩, ⟨0, 0⟩, 0, false, true⟩,
       sentinelBall, sentinelBall, sentinelBall, sentinelBall, sentinelBall] =
      ([⟨⟨0, 0⟩, Vector2.normalize ⟨0.266625, 2.0145⟩,
          0.95 * Vector2.length ⟨0.266625, 2.0145⟩, false, true⟩,
        ⟨⟨0.6 + (Vector2.normalize ⟨1.510875, 0.3555⟩).x *
            (0.95 * Vector2.length ⟨1.510875, 0.3555⟩) * (1/20),
          0 + (Vector2.normalize ⟨1.510875, 0.3555⟩).y *
            (0.95 * Vector2.length ⟨1.510875, 0.3555⟩) * (1/20)⟩,
          Vector2.normalize ⟨1.510875, 0.3555⟩,
          max (0.95 * Vector2.length ⟨1.510875, 0.3555⟩ - 0.0375) 0,
          false, true⟩,
        sentinelBall, sentinelBall, sentinelBall, sentinelBall, sentinelBall],
       ⟨none, false, true⟩) := by
  have hnp : ¬ isInPocket
      [(⟨⟨0, 0⟩, ⟨0.6, 0.8⟩, 2.9625, false, true⟩ : BallState),
       ⟨⟨0.5, 0⟩, ⟨0, 0⟩, 0, false, true⟩,
       sentinelBall, sentinelBall, sentinelBall, sentinelBall, sentinelBall]
      1 :=
    not_isInPocket_of_absY (by norm_num [getB, List.getD, abs_le])
  have hcb : checkBorders 1
      [(⟨⟨0, 0⟩, ⟨0.6, 0.8⟩, 2.9625, false, true⟩ : BallState),
       ⟨⟨0.5, 0⟩, ⟨0, 0⟩, 0, false, true⟩,
       sentinelBall, sentinelBall, sentinelBall, sentinelBall, sentinelBall] =
      [⟨⟨0, 0⟩, ⟨0.6, 0.8⟩, 2.9625, false, true⟩,
       ⟨⟨0.5, 0⟩, ⟨0, 0⟩, 0, false, true⟩,
       sentinelBall, sentinelBall, sentinelBall, sentinelBall, sentinelBall] :=
    checkBorders_id
      (by norm_num [getB, List.getD, tableHeight, ballRadius])
      (by norm_num [getB, List.getD, tableHeight, ballRadius])
      (by norm_num [getB, List.getD, tableWidth, ballRadius])
      (by norm_num [getB, List.getD, tableWidth, ballRadius])
  unfold moveBall
  rw [if_neg hnp]
  dsimp only
  rw [hcb]
  rw [checkBallCollision, ballIndices]
  rw [List.foldl_cons, collideStep_pump]
  rw [List.foldl_cons, collideStep_self]
  rw [List.foldl_cons, @collideStep_far 1 2 _ (by norm_num)
    (by norm_num [getB, List.getD, sentinelBall, ballRadius])]
  rw [List.foldl_cons, @collideStep_far 1 3 _ (by norm_num)
    (by norm_num [getB, List.getD, sentinelBall, ballRadius])]
  rw [List.foldl_cons, @collideStep_far 1 4 _ (by norm_num)
    (by norm_num [getB, List.getD, sentinelBall, ballRadius])]
  rw [List.foldl_cons, @collideStep_far 1 5 _ (by norm_num)
    (by norm_num [getB, List.getD, sentinelBall, ballRadius])]
  rw [List.foldl_cons, @collideStep_far 1 6 _ (by norm_num)
    (by norm_num [getB, List.getD, sentinelBall, ballRadius])]
  rw [List.foldl_nil]
  dsimp only
  rw [tableWidth]
  norm_num [getB, List.getD, setB, List.set]

theorem update_pump1 :
    update (1/20) pumpState =
      (⟨[⟨⟨-0.09, -0.12⟩, ⟨0.6, 0.8⟩, 3, false, true⟩,
         ⟨⟨0.5, 0⟩, ⟨0, 0⟩, 0, false, true⟩,
         sentinelBall, sentinelBall, sentinelBall, sentinelBall,
         sentinelBall], false, 0, true⟩,
       ⟨[0, 1], [], false, false⟩) := by
  have hmv1 : moveBall (1/20) 1
      [(⟨⟨-0.09, -0.12⟩, ⟨0.6, 0.8⟩, 3, false, true⟩ : BallState),
       ⟨⟨0.5, 0⟩, ⟨0, 0⟩, 0, false, true⟩,
       sentinelBall, sentinelBall, sentinelBall, sentinelBall, sentinelBall] =
      ([⟨⟨-0.09, -0.12⟩, ⟨0.6, 0.8⟩, 3, false, true⟩,
        ⟨⟨0.5, 0⟩, ⟨0, 0⟩, 0, false, true⟩,
        sentinelBall, sentinelBall, sentinelBall, sentinelBall, sentinelBall],
       ⟨none, false, false⟩) := by
    refine moveBall_rest_id (by norm_num) rfl
      (not_isInPocket_of_absY (by norm_num [getB, List.getD]))
      (by norm_num [getB, List.getD, tableHeight, ballRadius])
      (by norm_num [getB, List.getD, tableHeight, ballRadius])
      (by norm_num [getB, List.getD, tableWidth, ballRadius])
      (by norm_num [getB, List.getD, tableWidth, ballRadius])
      ?_
    intro a ha
    fin_cases ha
    · right
      norm_num [getB, List.getD, ballRadius]
    · exact Or.inl rfl
    all_goals
      right
      norm_num [getB, List.getD, sentinelBall, ballRadius]
  unfold update pumpState
  dsimp only
  rw [if_pos rfl]
  rw [ballIndices, List.foldl_cons,
    updateStep_run (by exact Bool.false_ne_true)]
  rw [moveBall_pump1_0]
  dsimp only
  rw [List.foldl_cons, updateStep_run (by exact Bool.false_ne_true)]
  rw [hmv1]
  dsimp only
  rw [List.foldl_cons, updateStep_pocketed (by rfl)]
  rw [List.foldl_cons, updateStep_pocketed (by rfl)]
  rw [List.foldl_cons, updateStep_pocketed (by rfl)]
  rw [List.foldl_cons, updateStep_pocketed (by rfl)]
  rw [List.foldl_cons, updateStep_pocketed (by rfl)]
  rw [List.foldl_nil]
  have hne : ¬ speedSum
      [(⟨⟨-0.09, -0.12⟩, ⟨0.6, 0.8⟩, 3, false, true⟩ : BallState),
       ⟨⟨0.5, 0⟩, ⟨0, 0⟩, 0, false, true⟩,
       sentinelBall, sentinelBall, sentinelBall, sentinelBall,
       sentinelBall] = 0 := by
    norm_num [speedSum, sentinelBall]
  rw [if_neg hne]
  simp [emptyLog, Option.toList]

theorem update_pump2 :
    (update (1/20)
      (⟨[⟨⟨-0.09, -0.12⟩, ⟨0.6, 0.8⟩, 3, false, true⟩,
         ⟨⟨0.5, 0⟩, ⟨0, 0⟩, 0, false, true⟩,
         sentinelBall, sentinelBall, sentinelBall, sentinelBall,
         sentinelBall], false, 0, true⟩ : GameState)).1.balls =
      [⟨⟨0, 0⟩, Vector2.normalize ⟨0.266625, 2.0145⟩,
         0.95 * Vector2.length ⟨0.266625, 2.0145⟩, false, true⟩,
       ⟨⟨0.6 + (Vector2.normalize ⟨1.510875, 0.3555⟩).x *
           (0.95 * Vector2.length ⟨1.510875, 0.3555⟩) * (1/20),
         0 + (Vector2.normalize ⟨1.510875, 0.3555⟩).y *
           (0.95 * Vector2.length ⟨1.510875, 0.3555⟩) * (1/20)⟩,
         Vector2.normalize ⟨1.510875, 0.3555⟩,
         max (0.95 * Vector2.length ⟨1.510875, 0.3555⟩ - 0.0375) 0,
         false, true⟩,
       sentinelBall, sentinelBall, sentinelBall, sentinelBall,
       sentinelBall] ∧
    (update (1/20)
      (⟨[⟨⟨-0.09, -0.12⟩, ⟨0.6, 0.8⟩, 3, false, true⟩,
         ⟨⟨0.5, 0⟩, ⟨0, 0⟩, 0, false, true⟩,
         sentinelBall, sentinelBall, sentinelBall, sentinelBall,
         sentinelBall], false, 0, true⟩ : GameState)).2 =
      ⟨[0, 1], [], false, true⟩ := by
  have hfold : ballIndices.foldl (updateStep (1/20))
      ([(⟨⟨-0.09, -0.12⟩, ⟨0.6, 0.8⟩, 3, false, true⟩ : BallState),
        ⟨⟨0.5, 0⟩, ⟨0, 0⟩, 0, false, true⟩,
        sentinelBall, sentinelBall, sentinelBall, sentinelBall,
        sentinelBall], emptyLog) =
      ([⟨⟨0, 0⟩, Vector2.normalize ⟨0.266625, 2.0145⟩,
          0.95 * Vector2.length ⟨0.266625, 2.0145⟩, false, true⟩,
        ⟨⟨0.6 + (Vector2.normalize ⟨1.510875, 0.3555⟩).x *
            (0.95 * Vector2.length ⟨1.510875, 0.3555⟩) * (1/20),
          0 + (Vector2.normalize ⟨1.510875, 0.3555⟩).y *
            (0.95 * Vector2.length ⟨1.510875, 0.3555⟩) * (1/20)⟩,
          Vector2.normalize ⟨1.510875, 0.3555⟩,
          max (0.95 * Vector2.length ⟨1.510875, 0.3555⟩ - 0.0375) 0,
          false, true⟩,
        sentinelBall, sentinelBall, sentinelBall, sentinelBall,
        sentinelBall],
       ⟨[0, 1], [], false, true⟩) := by
    rw [ballIndices, List.foldl_cons,
      updateStep_run (by exact Bool.false_ne_true)]
    rw [moveBall_pump2_0]
    dsimp only
    rw [List.foldl_cons, updateStep_run (by exact Bool.false_ne_true)]
    rw [moveBall_pump2_1]
    dsimp only
    rw [List.foldl_cons, updateStep_pocketed (by rfl)]
    rw [List.foldl_cons, updateStep_pocketed (by rfl)]
    rw [List.foldl_cons, updateStep_pocketed (by rfl)]
    rw [List.foldl_cons, updateStep_pocketed (by rfl)]
    rw [List.foldl_cons, updateStep_pocketed (by rfl)]
    rw [List.foldl_nil]
    simp [emptyLog, Option.toList]
  constructor
  · unfold update
    dsimp only
    rw [if_pos rfl]
    rw [hfold]
  · unfold update
    dsimp only
    rw [if_pos rfl]
    rw [hfold]

/-- Counterexample to C3 as stated: two consecutive frames from `pumpState`
    (cue ball running into the resting ball 1) in which nothing is pocketed,
    yet `speedSum` after the second frame exceeds `speedSum` after the
    first: the 0.85/0.15 collision blend adds energy. -/
theorem collision_pumps_speed_sum :
    (update (1/20) pumpState).2.pockets = [] ∧
    (update (1/20) pumpState).2.reset = false ∧
    (update (1/20) (update (1/20) pumpState).1).2.pockets = [] ∧
    (update (1/20) (update (1/20) pumpState).1).2.reset = false ∧
    speedSum (update (1/20) pumpState).1.balls <
      speedSum (update (1/20) (update (1/20) pumpState).1).1.balls := by
  have hL0 : (2.032:ℝ) ≤ Vector2.length ⟨0.266625, 2.0145⟩ := by
    rw [Vector2.length]
    dsimp only
    exact le_sqrt_of_sq_le (by norm_num) (by norm_num)
  have hL1 : (1.552:ℝ) ≤ Vector2.length ⟨1.510875, 0.3555⟩ := by
    rw [Vector2.length]
    dsimp only
    exact le_sqrt_of_sq_le (by norm_num) (by norm_num)
  refine ⟨?_, ?_, ?_, ?_, ?_⟩
  · rw [update_pump1]
  · rw [update_pump1]
  · rw [update_pump1]
    dsimp only
    rw [update_pump2.2]
  · rw [update_pump1]
    dsimp only
    rw [update_pump2.2]
  · rw [update_pump1]
    dsimp only
    rw [update_pump2.1]
    norm_num [speedSum, sentinelBall]
    norm_num at hL0 hL1
    have hmax : (19:ℝ)/20 * Vector2.length ⟨12087/8000, 711/2000⟩ - 3/80 ≤
        max ((19:ℝ)/20 * Vector2.length ⟨12087/8000, 711/2000⟩ - 3/80) 0 :=
      le_max_left _ _
    linarith
